import Mathlib

/-! StableDiffusionMoviePipeline

A shallow embedding of `UStableDiffusionMoviePipeline`
(`Source/StableDiffusionSequencer/Private/StableDiffusionMoviePipeline.cpp`):
the per-frame timeline scan, the stage loop and the quantisation step of
`RenderSample_GameThreadImpl`, and the upscale pass of `BeginExportImpl`.

Conventions of the embedding

* A `UObject*` is an `Option`: `none` is the null (or invalid) pointer.
* Frame numbers and pixel sizes are `Int` (the code holds them in `int32`; no
  statement below depends on wrap-around).
* Lines 156-163 compute `FullFrameTime` with the engine's
  `operator*(FFrameNumber, float)`: see `fullFrameTime`.  The functions of the
  frame take the time as an argument; `RenderSampleFrame` passes it.
* Curve values (`float`) are carried as `Rat`: the pipeline only copies them,
  it never computes with them.
* The generator bridge, the renderer and the file system are collaborators of
  the pipeline.  They are the fields of the parameter `Engine`; the bridge and
  the renderer are stateful, and their state `σ` is threaded explicitly.
* A dereference of a null pointer, or an array access out of range, ends the
  run: the state records it in `Crashed` and nothing is executed afterwards.
* `Events` is the trace of the run: the calls made to the bridge, and the layer
  contexts as the stage loop built them.
-/

namespace StableDiffusionMoviePipeline

/-! ## Data model -/

/-- The value of an `FFrameNumber`. -/
abbrev FFrameNumber := Int

/-- A `float` value read from a curve or an asset. -/
abbrev Scalar := Rat

/-- Modelled from the spec: the enumeration `EImageType` is declared outside this
file; the spec gives an output type the two values `Pixels | Latent`. -/
inductive EImageType where
  | Pixels
  | Latent
deriving DecidableEq, Repr

/-- Modelled from the spec: the enumeration `EModelStatus` is declared outside
this file (the code names `Loaded` only); the spec lists
`Unloaded | Loading | Loaded | Failed`. -/
inductive EModelStatus where
  | Unloaded
  | Loading
  | Loaded
  | Failed
deriving DecidableEq, Repr

/-- Modelled from the spec: the struct `FPrompt` is declared outside this file;
the spec gives a prompt a text and a weight, and the code writes `Weight` from
the weight channel. -/
structure FPrompt where
  Prompt : String
  Weight : Scalar
deriving DecidableEq, Repr

/-- A movie-scene channel.  `eval t` is the value of the curve at `t`, or `none`
when the channel holds no data at all. -/
structure Channel (α : Type) where
  eval : FFrameNumber → Option α

/-- The call `Channel.Evaluate(Time, OutValue)`: writes the value at `Time` into
`OutValue`, which keeps its previous content when the channel has no data. -/
def Channel.Evaluate {α : Type} (c : Channel α) (t : FFrameNumber) (out : α) : α :=
  match c.eval t with
  | some v => v
  | none => out

/-- A channel whose curve is constant. -/
def Channel.const {α : Type} (v : α) : Channel α := ⟨fun _ => some v⟩

/-- A `ULayerProcessorOptions` object, seen through reflection: its `float`
properties in declaration order. -/
structure LayerProcessorOptions where
  FloatProperties : List (String × Scalar)
deriving DecidableEq, Repr

/-- A `ULayerProcessorBase` object: an identity and what
`AllocateLayerOptions()` returns. -/
structure LayerProcessor where
  Id : Nat
  AllocateLayerOptions : Option LayerProcessorOptions
deriving DecidableEq, Repr

/-- The struct `FLayerProcessorContext`, both the entries of a stage asset's
`Layers` and the per-frame copies made by the stage loop. -/
structure FLayerProcessorContext where
  OutputType : EImageType
  LayerType : Nat
  Role : Nat
  Processor : Option LayerProcessor
  ProcessorOptions : Option LayerProcessorOptions
  LatentData : List Nat
  LayerPixels : List Nat
deriving DecidableEq, Repr

/-- The struct `OverrideInputOptions` of a stage asset. -/
structure FOverrideInputOptions where
  OverrideGuidanceScale : Bool
  GuidanceScale : Scalar
  OverrideLoraWeight : Bool
  LoraWeight : Scalar
deriving DecidableEq, Repr

/-- A `UImagePipelineStageAsset`.  `Model` is the pointer to the model asset,
carrying its `Options`; the other asset references are handles. -/
structure UImagePipelineStageAsset where
  Model : Option Nat
  Pipeline : Nat
  LORAAsset : Nat
  TextualInversionAsset : Nat
  Layers : List FLayerProcessorContext
  OutputType : EImageType
  OverrideInputOptions : FOverrideInputOptions
deriving DecidableEq, Repr

/-- The struct `FStableDiffusionGenerationOptions` (`Input.Options`). -/
structure FStableDiffusionGenerationOptions where
  InSizeX : Int
  InSizeY : Int
  OutSizeX : Int
  OutSizeY : Int
  Strength : Scalar
  Iterations : Int
  Seed : Int
  GuidanceScale : Scalar
  LoraWeight : Scalar
  Prompts : List FPrompt
deriving DecidableEq, Repr

/-- Modelled from the spec: `FStableDiffusionGenerationOptions::AddPrompt` is
declared outside this file; the spec gives the generation input one list
`prompts[] (text, weight)` to which a contributing section adds its prompt. -/
def FStableDiffusionGenerationOptions.AddPrompt
    (o : FStableDiffusionGenerationOptions) (p : FPrompt) : FStableDiffusionGenerationOptions :=
  { o with Prompts := o.Prompts ++ [p] }

/-- A `UStableDiffusionOptionsSection`.  `StartFrame`, `EndFrame` and `Active`
are the section's frame range and active flag; the options scan reads none of
them. -/
structure UStableDiffusionOptionsSection where
  PipelineStages : List (Option UImagePipelineStageAsset)
  StrengthChannel : Channel Scalar
  IterationsChannel : Channel Int
  SeedChannel : Channel Int
  Active : Bool
  StartFrame : FFrameNumber
  EndFrame : FFrameNumber

/-- A `UStableDiffusionPromptMovieSceneSection`.  The prompt scan reads both
ends of the frame range unguarded, so they are present. -/
structure UStableDiffusionPromptMovieSceneSection where
  Active : Bool
  Prompt : FPrompt
  WeightChannel : Channel Scalar
  InclusiveStartFrame : FFrameNumber
  ExclusiveEndFrame : FFrameNumber

/-- An `FScalarParameterNameAndCurve`. -/
structure FScalarParameterNameAndCurve where
  ParameterName : String
  ParameterCurve : Channel Scalar

/-- A `UStableDiffusionLayerProcessorSection`.  A bound of the frame range may be
open (`HasStartFrame()`, `HasEndFrame()`). -/
structure UStableDiffusionLayerProcessorSection where
  Active : Bool
  StartFrame : Option FFrameNumber
  EndFrame : Option FFrameNumber
  LayerIndex : Int
  ImagePipelineStageIndex : Int
  LayerProcessorOptionOverride : Option LayerProcessorOptions
  ScalarParameterNamesAndCurves : List FScalarParameterNameAndCurve

/-- An entry of a track's `Sections` array: a `UMovieSceneSection*`, which is
null or points to a section of one of the three kinds (`other` stands for any
further section class).  `Cast<T>` succeeds on the matching constructor only. -/
inductive MovieSceneSection where
  | null
  | options (s : UStableDiffusionOptionsSection)
  | prompt (s : UStableDiffusionPromptMovieSceneSection)
  | layerProcessor (s : UStableDiffusionLayerProcessorSection)
  | other

/-- A track: its `Sections` array. -/
structure MovieSceneTrack where
  Sections : List MovieSceneSection

/-! ## Timeline scan of `RenderSample_GameThreadImpl` -/

/-- The engine's `operator*(FFrameNumber, float)` (`Misc/FrameNumber.h`): the
product is rounded down to a whole frame number and clamped to the `int32`
range. -/
def FFrameNumber.mulFloat (A : FFrameNumber) (Factor : Scalar) : FFrameNumber :=
  max (-2147483648) (min 2147483647 ⌊(A : Rat) * Factor⌋)

/-- Lines 157-163: `FullFrameTime`.  `EffectiveFrame` is an `FFrameNumber`, so
`EffectiveFrame * OriginalSeqFramerateRatio * 1000.0f` is two products of a
frame number with a scalar, taken from the left; the ratio is the display rate
of the sequence over the effective frame rate, both as decimals. -/
def fullFrameTime (EffectiveFrame : FFrameNumber) (DisplayRate EffectiveFrameRate : Scalar) :
    FFrameNumber :=
  FFrameNumber.mulFloat
    (FFrameNumber.mulFloat EffectiveFrame (DisplayRate / EffectiveFrameRate)) 1000

/-- The values the options scan writes: `Stages` and the three keyed fields of
`Input.Options`. -/
structure GlobalOptions where
  Stages : List (Option UImagePipelineStageAsset)
  Strength : Scalar
  Iterations : Int
  Seed : Int
deriving DecidableEq, Repr

/-- The body of the loop over `OptionsTrack->Sections`. -/
def optionsSectionStep (t : FFrameNumber) (g : GlobalOptions) (sec : MovieSceneSection) :
    GlobalOptions :=
  match sec with
  | .options s =>
      { Stages := s.PipelineStages
        Strength := s.StrengthChannel.Evaluate t g.Strength
        Iterations := s.IterationsChannel.Evaluate t g.Iterations
        Seed := s.SeedChannel.Evaluate t g.Seed }
  | _ => g

/-- The options scan: `Stages` starts empty and the keyed fields start at the
values of the default-constructed input; every options section of the track
overwrites them in turn. -/
def resolveGlobalOptions (OptionsTrack : Option MovieSceneTrack) (t : FFrameNumber)
    (dflt : FStableDiffusionGenerationOptions) : GlobalOptions :=
  let g0 : GlobalOptions :=
    { Stages := [], Strength := dflt.Strength, Iterations := dflt.Iterations, Seed := dflt.Seed }
  match OptionsTrack with
  | some track => track.Sections.foldl (optionsSectionStep t) g0
  | none => g0

/-- The body of the loop over the sections of a prompt track. -/
def promptSectionStep (t : FFrameNumber) (o : FStableDiffusionGenerationOptions)
    (sec : MovieSceneSection) : FStableDiffusionGenerationOptions :=
  match sec with
  | .prompt s =>
      if s.Active then
        let Prompt : FPrompt :=
          { s.Prompt with Weight := s.WeightChannel.Evaluate t s.Prompt.Weight }
        if s.InclusiveStartFrame < t ∧ t < s.ExclusiveEndFrame then o.AddPrompt Prompt else o
      else o
  | _ => o

/-- The prompt scan over all of `PromptTracks`. -/
def buildCombinedPrompt (PromptTracks : List MovieSceneTrack) (t : FFrameNumber)
    (o : FStableDiffusionGenerationOptions) : FStableDiffusionGenerationOptions :=
  PromptTracks.foldl (fun acc track => track.Sections.foldl (promptSectionStep t) acc) o

/-! ## Stage loop of `RenderSample_GameThreadImpl` -/

/-- A `UTexture2D`, reduced to its size. -/
structure UTexture2D where
  SizeX : Int
  SizeY : Int
deriving DecidableEq, Repr

/-- The engine call `UTexture2D::CreateTransient`: null unless both sizes are positive. -/
def UTexture2D.CreateTransient (InSizeX InSizeY : Int) : Option UTexture2D :=
  if 0 < InSizeX ∧ 0 < InSizeY then some ⟨InSizeX, InSizeY⟩ else none

/-- The struct `FStableDiffusionImageResult`. -/
structure FStableDiffusionImageResult where
  Completed : Bool
  Upsampled : Bool
  OutTexture : Option UTexture2D
  OutLatent : List Nat
  OutWidth : Int
  OutHeight : Int
deriving DecidableEq, Repr

/-- The struct `FStableDiffusionInput`. -/
structure FStableDiffusionInput where
  PreviewIterationRate : Int
  DebugPythonImages : Bool
  Options : FStableDiffusionGenerationOptions
  OutputType : EImageType
  InputLayers : List FLayerProcessorContext
  ProcessedLayers : List FLayerProcessorContext
deriving DecidableEq, Repr

/-- The member initialisers of the structs that the frame default-constructs.
They are declared in headers outside this file, so they are parameters. -/
structure HeaderDefaults where
  Strength : Scalar
  Iterations : Int
  Seed : Int
  GuidanceScale : Scalar
  LoraWeight : Scalar
  OutputType : EImageType
  Completed : Bool
  Upsampled : Bool
  OutWidth : Int
  OutHeight : Int

/-- The default-constructed `FStableDiffusionImageResult LastStageResult`: its
array is empty and its texture pointer is null. -/
def HeaderDefaults.ImageResult (d : HeaderDefaults) : FStableDiffusionImageResult :=
  { Completed := d.Completed, Upsampled := d.Upsampled, OutTexture := none, OutLatent := [],
    OutWidth := d.OutWidth, OutHeight := d.OutHeight }

/-- The members of the render pass that a frame reads. -/
structure RenderPass where
  OptionsTrack : Option MovieSceneTrack
  PromptTracks : List MovieSceneTrack
  LayerProcessorTracks : List MovieSceneTrack
  AllowNSFW : Bool
  PaddingMode : Nat
  DebugPythonImages : Bool

/-- The collaborators of the pipeline, over the state `σ` of subsystem, bridge
and renderer.

* `InitModel w modelOptions stage allowNSFW paddingMode`: `SDSubsystem->InitModel`
  with the model options and the asset references and layers of `stage`.
* `GetModelStatus w`: `SDSubsystem->GetModelStatus().ModelStatus`.
* `CaptureLayer w size layer`: lines 255-281, from `BeginCaptureLayer` to
  `EndCaptureLayer`; the list is what `ReadPixels` left in `Layer.LayerPixels`
  (empty when the read failed).
* `GenerateImageFromStartImage w input outTexture`: the bridge call of line 289.
* `ReadPixelsNum tex`: the length of `UStableDiffusionBlueprintLibrary::ReadPixels(tex)`.
* `ReleaseModel`, `StartUpsample`, `StopUpsample`, `UpsampleImage`: the
  subsystem and bridge calls of the export pass.
* `ImportFileAsTexture2D file`: `FImageUtils::ImportFileAsTexture2D`, `none`
  when the result is not a valid texture.
* `ColorBufferToTexture n size`: the texture that
  `UStableDiffusionBlueprintLibrary::ColorBufferToTexture` makes of `n` pixels
  and the size passed to it.
* `ResolveFilename dir pre file`: lines 425-432, the output path resolved from
  the output directory, the frame name prefix and the exported file. -/
structure Engine (σ : Type) where
  InitModel : σ → Nat → UImagePipelineStageAsset → Bool → Nat → σ
  GetModelStatus : σ → EModelStatus
  CaptureLayer : σ → Int × Int → FLayerProcessorContext → σ × List Nat
  GenerateImageFromStartImage :
    σ → FStableDiffusionInput → Option UTexture2D → σ × FStableDiffusionImageResult
  ReadPixelsNum : Option UTexture2D → Int
  ReleaseModel : σ → σ
  StartUpsample : σ → σ
  StopUpsample : σ → σ
  ImportFileAsTexture2D : String → Option UTexture2D
  ColorBufferToTexture : Int → Int × Int → UTexture2D
  UpsampleImage :
    σ → FStableDiffusionImageResult → Option UTexture2D → σ × FStableDiffusionImageResult
  ResolveFilename : String → String → String → String

/-- The trace of the stage loop. -/
inductive PipelineEvent where
  /-- The call of `InitModel` for the stage, and the status read at line 218. -/
  | InitModel (StageIdx : Nat) (Status : EModelStatus)
  /-- The array `CurrentStageLayers` as lines 234-244 built it, with the value that
  `LastStageResult` had then. -/
  | LayersBuilt (StageIdx : Nat) (Last : FStableDiffusionImageResult)
      (Layers : List FLayerProcessorContext)
  /-- The bridge call of line 289 and its result. -/
  | Generate (StageIdx : Nat) (StageInput : FStableDiffusionInput)
      (Result : FStableDiffusionImageResult)
deriving DecidableEq, Repr

/-- The state carried from one stage to the next. -/
structure StageLoopState (σ : Type) where
  World : σ
  LastStageResult : FStableDiffusionImageResult
  Events : List PipelineEvent
  Crashed : Bool

/-- Line 241: the options object of the copy.  The layer's own options are
duplicated when it stores some; otherwise `Layer.Processor->AllocateLayerOptions()`
is called, which with a null processor is a null dereference (outer `none`). -/
def allocateOptions (Layer : FLayerProcessorContext) : Option (Option LayerProcessorOptions) :=
  match Layer.ProcessorOptions with
  | some o => some (some o)
  | none => Layer.Processor.map fun p => p.AllocateLayerOptions

/-- Lines 236-243: the copy of one layer of the stage asset, or `none` when
line 241 dereferences null. -/
def buildLayerContext (LastStageResult : FStableDiffusionImageResult)
    (Layer : FLayerProcessorContext) : Option FLayerProcessorContext :=
  (allocateOptions Layer).map fun opts =>
    { OutputType := Layer.OutputType
      LayerType := Layer.LayerType
      Role := Layer.Role
      Processor := Layer.Processor
      ProcessorOptions := opts
      LatentData :=
        if Layer.OutputType = EImageType.Latent ∧ LastStageResult.Completed = true then
          LastStageResult.OutLatent
        else []
      LayerPixels := [] }

/-- Lines 234-244: `CurrentStageLayers`, or `none` when a copy dereferences null. -/
def buildStageLayers (LastStageResult : FStableDiffusionImageResult) :
    List FLayerProcessorContext → Option (List FLayerProcessorContext)
  | [] => some []
  | Layer :: rest =>
      match buildLayerContext LastStageResult Layer with
      | none => none
      | some TargetLayer =>
          match buildStageLayers LastStageResult rest with
          | none => none
          | some built => some (TargetLayer :: built)

/-- Lines 464-466 of `ApplyLayerOptions`: `InRange`. -/
def sectionInRange (s : UStableDiffusionLayerProcessorSection) (FrameTime : FFrameNumber) : Bool :=
  (match s.StartFrame with
    | some start => decide (start < FrameTime)
    | none => true) &&
  (match s.EndFrame with
    | some stop => decide (stop > FrameTime)
    | none => true)

/-- Lines 480-497 of `ApplyLayerOptions`: every `float` property whose name is
the name of one of the section's curves (the first such curve) receives the
local `ParamValAtTime` after `Evaluate`.  `Uninit` is the content of that
uninitialised local, which stays when the curve has no data. -/
def applyScalarParams (ScalarParams : List FScalarParameterNameAndCurve)
    (FrameTime : FFrameNumber) (Uninit : Scalar) (o : LayerProcessorOptions) :
    LayerProcessorOptions :=
  { FloatProperties := o.FloatProperties.map fun Property =>
      match ScalarParams.find? (fun p => p.ParameterName == Property.1) with
      | some Param => (Property.1, Param.ParameterCurve.Evaluate FrameTime Uninit)
      | none => Property }

/-- Whether the section passes the test of lines 468-472. -/
def layerSectionApplies (s : UStableDiffusionLayerProcessorSection) (NumLayers : Nat)
    (StageIndex : Nat) (FrameTime : FFrameNumber) : Bool :=
  sectionInRange s FrameTime && s.Active && decide (s.LayerIndex < (NumLayers : Int)) &&
    decide (s.ImagePipelineStageIndex = (StageIndex : Int))

/-- The body of the section loop of `ApplyLayerOptions` (lines 461-502).
`Layers[LayerIndex]` with a negative index is an access out of range (`none`).
The options object is held by value: the properties written into a section's
override object are seen through the layer context that receives the object. -/
def applyLayerSection (Uninit : Scalar) (StageIndex : Nat) (FrameTime : FFrameNumber)
    (Layers : Option (List FLayerProcessorContext)) (sec : MovieSceneSection) :
    Option (List FLayerProcessorContext) :=
  match Layers with
  | none => none
  | some Layers =>
      match sec with
      | .layerProcessor s =>
          if layerSectionApplies s Layers.length StageIndex FrameTime = true then
            if s.LayerIndex < 0 then none
            else
              match Layers.get? s.LayerIndex.toNat with
              | none => none
              | some ExistingLayerContext =>
                  let LayerOptions : Option LayerProcessorOptions :=
                    match s.LayerProcessorOptionOverride with
                    | some o => some o
                    | none => ExistingLayerContext.ProcessorOptions
                  let Written : Option LayerProcessorOptions :=
                    LayerOptions.map
                      (applyScalarParams s.ScalarParameterNamesAndCurves FrameTime Uninit)
                  some (Layers.set s.LayerIndex.toNat
                    { ExistingLayerContext with ProcessorOptions := Written })
          else some Layers
      | _ => some Layers

/-- The method `ApplyLayerOptions(Layers, StageIndex, FrameTime)`: the layers as
it leaves them, or `none` when it indexes `Layers` out of range. -/
def ApplyLayerOptions (LayerProcessorTracks : List MovieSceneTrack) (Uninit : Scalar)
    (Layers : List FLayerProcessorContext) (StageIndex : Nat) (FrameTime : FFrameNumber) :
    Option (List FLayerProcessorContext) :=
  LayerProcessorTracks.foldl
    (fun acc Track => Track.Sections.foldl (applyLayerSection Uninit StageIndex FrameTime) acc)
    (some Layers)

/-- What `MoveTemp(Layer)` leaves behind in `StageInput.InputLayers`: the arrays
of the context have been moved out. -/
def movedFrom (Layer : FLayerProcessorContext) : FLayerProcessorContext :=
  { Layer with LatentData := [], LayerPixels := [] }

/-- Lines 252-285: the capture loop over `StageInput.InputLayers`.  Returns the
state after the captures, `InputLayers` as the loop leaves it, and the layers
appended to `ProcessedLayers`. -/
def captureLayers {σ : Type} (E : Engine σ) (Size : Int × Int) :
    σ → List FLayerProcessorContext →
      σ × List FLayerProcessorContext × List FLayerProcessorContext
  | w, [] => (w, [], [])
  | w, Layer :: rest =>
      match Layer.Processor with
      | some _ =>
          let captured : FLayerProcessorContext :=
            { Layer with LayerPixels := (E.CaptureLayer w Size Layer).2 }
          let r := captureLayers E Size (E.CaptureLayer w Size Layer).1 rest
          (r.1, movedFrom captured :: r.2.1, captured :: r.2.2)
      | none =>
          let r := captureLayers E Size w rest
          (r.1, Layer :: r.2.1, r.2.2)

/-- Lines 224-231: `StageInput`, the copy of the frame-level `Input` with the
stage's output type and overrides. -/
def buildStageInput (Input : FStableDiffusionInput) (CurrentStage : UImagePipelineStageAsset) :
    FStableDiffusionInput :=
  { Input with
    OutputType := CurrentStage.OutputType
    Options :=
      { Input.Options with
        GuidanceScale :=
          if CurrentStage.OverrideInputOptions.OverrideGuidanceScale = true then
            CurrentStage.OverrideInputOptions.GuidanceScale
          else Input.Options.GuidanceScale
        LoraWeight :=
          if CurrentStage.OverrideInputOptions.OverrideLoraWeight = true then
            CurrentStage.OverrideInputOptions.LoraWeight
          else Input.Options.LoraWeight } }

/-- Lines 252-285 for a stage: the capture loop at the output size of the stage
input. -/
def captureStage {σ : Type} (E : Engine σ) (Input : FStableDiffusionInput)
    (CurrentStage : UImagePipelineStageAsset) (w : σ) (Layers : List FLayerProcessorContext) :
    σ × List FLayerProcessorContext × List FLayerProcessorContext :=
  captureLayers E
    ((buildStageInput Input CurrentStage).Options.OutSizeX,
      (buildStageInput Input CurrentStage).Options.OutSizeY) w Layers

/-- The value of `StageInput` at line 289: the stage input of lines 224-231 with
`InputLayers` and `ProcessedLayers` as the capture loop left them. -/
def stageInputAtGenerate (Input : FStableDiffusionInput)
    (CurrentStage : UImagePipelineStageAsset)
    (InputLayers ProcessedLayers : List FLayerProcessorContext) : FStableDiffusionInput :=
  { buildStageInput Input CurrentStage with
    InputLayers := InputLayers
    ProcessedLayers := (buildStageInput Input CurrentStage).ProcessedLayers ++ ProcessedLayers }

/-- Lines 246-290 for a stage whose model is loaded and whose layer contexts are
built: layer options, captures, and the guarded bridge call. -/
def generateStage {σ : Type} (E : Engine σ) (P : RenderPass) (Uninit : Scalar)
    (Input : FStableDiffusionInput) (OutTexture : Option UTexture2D) (FullFrameTime : FFrameNumber)
    (StageIdx : Nat) (CurrentStage : UImagePipelineStageAsset)
    (CurrentStageLayers : List FLayerProcessorContext) (st : StageLoopState σ) :
    StageLoopState σ :=
  match ApplyLayerOptions P.LayerProcessorTracks Uninit CurrentStageLayers StageIdx
      FullFrameTime with
  | none => { st with Crashed := true }
  | some Layers =>
      let cap := captureStage E Input CurrentStage st.World Layers
      let StageInput := stageInputAtGenerate Input CurrentStage cap.2.1 cap.2.2
      if E.GetModelStatus cap.1 = EModelStatus.Loaded then
        let gen := E.GenerateImageFromStartImage cap.1 StageInput OutTexture
        { st with
          World := gen.1
          LastStageResult := gen.2
          Events := st.Events ++ [PipelineEvent.Generate StageIdx StageInput gen.2] }
      else { st with World := cap.1 }

/-- The body of the stage loop (lines 209-290) for stage `StageIdx`. -/
def stageStep {σ : Type} (E : Engine σ) (P : RenderPass) (Uninit : Scalar)
    (Input : FStableDiffusionInput) (OutTexture : Option UTexture2D) (FullFrameTime : FFrameNumber)
    (StageIdx : Nat) (CurrentStage : Option UImagePipelineStageAsset) (st : StageLoopState σ) :
    StageLoopState σ :=
  if st.Crashed = true then st
  else
    match CurrentStage with
    | none => st
    | some stage =>
        match stage.Model with
        | none => { st with Crashed := true }
        | some ModelOptions =>
            let w := E.InitModel st.World ModelOptions stage P.AllowNSFW P.PaddingMode
            let st1 : StageLoopState σ :=
              { st with
                World := w
                Events := st.Events ++ [PipelineEvent.InitModel StageIdx (E.GetModelStatus w)] }
            if E.GetModelStatus w ≠ EModelStatus.Loaded then st1
            else
              match buildStageLayers st.LastStageResult stage.Layers with
              | none => { st1 with Crashed := true }
              | some CurrentStageLayers =>
                  generateStage E P Uninit Input OutTexture FullFrameTime StageIdx stage
                    CurrentStageLayers
                    { st1 with
                      Events := st1.Events ++
                        [PipelineEvent.LayersBuilt StageIdx st.LastStageResult CurrentStageLayers] }

/-- The stage loop (lines 208-293) from stage index `StageIdx` on. -/
def runStages {σ : Type} (E : Engine σ) (P : RenderPass) (Uninit : Scalar)
    (Input : FStableDiffusionInput) (OutTexture : Option UTexture2D) (FullFrameTime : FFrameNumber) :
    Nat → List (Option UImagePipelineStageAsset) → StageLoopState σ → StageLoopState σ
  | _, [], st => st
  | StageIdx, CurrentStage :: rest, st =>
      runStages E P Uninit Input OutTexture FullFrameTime (StageIdx + 1) rest
        (stageStep E P Uninit Input OutTexture FullFrameTime StageIdx CurrentStage st)

/-! ## Frame-level input and quantisation -/

/-- Lines 148-201: the frame-level `Input` after the options scan and the prompt
scan, for a render target of size `Size`. -/
def frameInput (P : RenderPass) (D : HeaderDefaults) (Size : Int × Int)
    (FullFrameTime : FFrameNumber) : FStableDiffusionInput :=
  let o0 : FStableDiffusionGenerationOptions :=
    { InSizeX := Size.1, InSizeY := Size.2, OutSizeX := Size.1, OutSizeY := Size.2
      Strength := D.Strength, Iterations := D.Iterations, Seed := D.Seed
      GuidanceScale := D.GuidanceScale, LoraWeight := D.LoraWeight, Prompts := [] }
  let g := resolveGlobalOptions P.OptionsTrack FullFrameTime o0
  let o1 : FStableDiffusionGenerationOptions :=
    { o0 with Strength := g.Strength, Iterations := g.Iterations, Seed := g.Seed }
  { PreviewIterationRate := -1
    DebugPythonImages := P.DebugPythonImages
    Options := buildCombinedPrompt P.PromptTracks FullFrameTime o1
    OutputType := D.OutputType
    InputLayers := []
    ProcessedLayers := [] }

/-- The stage list chosen by the options scan (line 172). -/
def frameStages (P : RenderPass) (D : HeaderDefaults) (Size : Int × Int)
    (FullFrameTime : FFrameNumber) : List (Option UImagePipelineStageAsset) :=
  (resolveGlobalOptions P.OptionsTrack FullFrameTime
    { InSizeX := Size.1, InSizeY := Size.2, OutSizeX := Size.1, OutSizeY := Size.2
      Strength := D.Strength, Iterations := D.Iterations, Seed := D.Seed
      GuidanceScale := D.GuidanceScale, LoraWeight := D.LoraWeight, Prompts := [] }).Stages

/-- A `TImagePixelData<FColor>`: the size it is labelled with and the length of
its pixel array. -/
structure TImagePixelData where
  Size : Int × Int
  NumPixels : Int
deriving DecidableEq, Repr

/-- Lines 297-315: `SDImageDataBuffer8bit`, the buffer handed to
`QuantizeImagePixelDataToBitDepth`. -/
def buildImageDataBuffer8bit {σ : Type} (E : Engine σ) (Input : FStableDiffusionInput)
    (OutTexture : Option UTexture2D) (LastStageResult : FStableDiffusionImageResult) :
    TImagePixelData :=
  if LastStageResult.OutTexture.isSome = true then
    { Size := (LastStageResult.OutWidth, LastStageResult.OutHeight)
      NumPixels := E.ReadPixelsNum OutTexture }
  else
    { Size := (Input.Options.OutSizeX, Input.Options.OutSizeY)
      NumPixels := Input.Options.OutSizeX * Input.Options.OutSizeY }

/-- The frame, from the timeline scan to the 8-bit buffer: the state after the
stage loop and the buffer, which is `none` when the stage loop crashed. -/
def RenderSample {σ : Type} (E : Engine σ) (P : RenderPass) (D : HeaderDefaults)
    (Uninit : Scalar) (w : σ) (Size : Int × Int) (FullFrameTime : FFrameNumber) :
    StageLoopState σ × Option TImagePixelData :=
  let Input := frameInput P D Size FullFrameTime
  let OutTexture := UTexture2D.CreateTransient Input.Options.OutSizeX Input.Options.OutSizeY
  let st := runStages E P Uninit Input OutTexture FullFrameTime 0
    (frameStages P D Size FullFrameTime)
    { World := w, LastStageResult := D.ImageResult, Events := [], Crashed := false }
  (st, if st.Crashed = true then none
       else some (buildImageDataBuffer8bit E Input OutTexture st.LastStageResult))

/-- The frame of effective frame number `EffectiveFrame`: every curve of the
frame is evaluated at `fullFrameTime`. -/
def RenderSampleFrame {σ : Type} (E : Engine σ) (P : RenderPass) (D : HeaderDefaults)
    (Uninit : Scalar) (w : σ) (Size : Int × Int) (EffectiveFrame : FFrameNumber)
    (DisplayRate EffectiveFrameRate : Scalar) : StageLoopState σ × Option TImagePixelData :=
  RenderSample E P D Uninit w Size (fullFrameTime EffectiveFrame DisplayRate EffectiveFrameRate)

/-! ## Upscale pass: `BeginExportImpl` -/

/-- An `FImageWriteTask` as line 449 enqueues it (format EXR, default
compression): the file name and the size and pixel count of its pixel data. -/
structure FImageWriteTask where
  Filename : String
  Size : Int × Int
  NumPixels : Int
deriving DecidableEq, Repr

/-- The trace of the export pass: the calls made to the subsystem and the
bridge, and the tasks handed to the image write queue. -/
inductive ExportEvent where
  | ReleaseModel
  | StartUpsample
  | UpsampleImage (UpsampleInput : FStableDiffusionImageResult) (Destination : Option UTexture2D)
  | StopUpsample
  | Enqueue (Task : FImageWriteTask)
deriving DecidableEq, Repr

/-- The state of the export pass. -/
structure ExportState (σ : Type) where
  World : σ
  Events : List ExportEvent

/-- The settings and members the export pass reads. -/
structure ExportSettings where
  bUpscale : Bool
  OutputDirectory : String
  /-- The member `UpscaledFramePrefix`. -/
  UpscaledFrameName : String

/-- The shot data of the output: per shot, the file paths of each render pass
(`shot.RenderPassData`, keyed by pass identifier). -/
structure ShotOutputData where
  RenderPassData : List (Nat × List String)

/-- Lines 383-450: the body of the loop over the files of a render pass. -/
def exportFile {σ : Type} (E : Engine σ) (S : ExportSettings) (st : ExportState σ)
    (file : String) : ExportState σ :=
  match E.ImportFileAsTexture2D file with
  | none => st
  | some Image =>
      let UpsampleInput : FStableDiffusionImageResult :=
        { Completed := false
          Upsampled := false
          OutTexture :=
            some (E.ColorBufferToTexture (Image.SizeX * Image.SizeY) (Image.SizeX, Image.SizeY))
          OutLatent := []
          OutWidth := Image.SizeX
          OutHeight := Image.SizeY }
      let Source := E.ColorBufferToTexture (Image.SizeX * Image.SizeY) (Image.SizeX, Image.SizeY)
      let UpsampledTexture := UTexture2D.CreateTransient (Source.SizeX * 4) (Source.SizeY * 4)
      let up := E.UpsampleImage st.World UpsampleInput UpsampledTexture
      let called : List ExportEvent :=
        st.Events ++ [ExportEvent.UpsampleImage UpsampleInput UpsampledTexture]
      if up.2.OutTexture.isSome = true then
        { World := up.1
          Events := called ++
            [ExportEvent.Enqueue
              { Filename := E.ResolveFilename S.OutputDirectory S.UpscaledFrameName file
                Size := (up.2.OutWidth, up.2.OutHeight)
                NumPixels := E.ReadPixelsNum up.2.OutTexture }] }
      else { World := up.1, Events := called }

/-- Lines 379-453: the body of the loop over the render passes of a shot. -/
def exportRenderPass {σ : Type} (E : Engine σ) (S : ExportSettings) (st : ExportState σ)
    (FilePaths : List String) : ExportState σ :=
  let started : ExportState σ :=
    { World := E.StartUpsample st.World, Events := st.Events ++ [ExportEvent.StartUpsample] }
  let done := FilePaths.foldl (exportFile E S) started
  { World := E.StopUpsample done.World, Events := done.Events ++ [ExportEvent.StopUpsample] }

/-- Lines 377-455: the body of the loop over the shots. -/
def exportShot {σ : Type} (E : Engine σ) (S : ExportSettings) (st : ExportState σ)
    (shot : ShotOutputData) : ExportState σ :=
  shot.RenderPassData.foldl (fun acc renderpass => exportRenderPass E S acc renderpass.2) st

/-- The method `BeginExportImpl`, over the shot data of the pipeline output. -/
def BeginExportImpl {σ : Type} (E : Engine σ) (S : ExportSettings) (w : σ)
    (ShotData : List ShotOutputData) : ExportState σ :=
  if S.bUpscale = false then { World := w, Events := [] }
  else
    ShotData.foldl (exportShot E S)
      { World := E.ReleaseModel w, Events := [ExportEvent.ReleaseModel] }

/-- Whether the event is a call of `UpsampleImage`. -/
def ExportEvent.isUpsampleCall : ExportEvent → Bool
  | .UpsampleImage _ _ => true
  | _ => false

/-- The task of an `Enqueue` event. -/
def ExportEvent.enqueuedTask : ExportEvent → Option FImageWriteTask
  | .Enqueue Task => some Task
  | _ => none

/-- What the loop body of lines 383-450 appends to the trace for `file`: nothing
when the file does not reload; otherwise the call of `UpsampleImage`, followed
by the write task of the file exactly when the upsample result (at the state
`w` the bridge was in) holds a valid texture. -/
def FileEvents {σ : Type} (E : Engine σ) (S : ExportSettings) (file : String)
    (chunk : List ExportEvent) : Prop :=
  (E.ImportFileAsTexture2D file = none ∧ chunk = []) ∨
  ∃ Image inp dest w, E.ImportFileAsTexture2D file = some Image ∧
    (((E.UpsampleImage w inp dest).2.OutTexture = none ∧
        chunk = [ExportEvent.UpsampleImage inp dest]) ∨
      ((E.UpsampleImage w inp dest).2.OutTexture ≠ none ∧
        chunk = [ExportEvent.UpsampleImage inp dest,
          ExportEvent.Enqueue
            { Filename := E.ResolveFilename S.OutputDirectory S.UpscaledFrameName file
              Size := ((E.UpsampleImage w inp dest).2.OutWidth,
                (E.UpsampleImage w inp dest).2.OutHeight)
              NumPixels := E.ReadPixelsNum (E.UpsampleImage w inp dest).2.OutTexture }]))

/-! ## Trace predicates of the stage loop -/

/-- What an event appended by the loop body for stage `i` can be, where `st` is
the state before the body and `st2` the state after it. -/
def StageEvent {σ : Type} (Input : FStableDiffusionInput) (i : Nat)
    (cs : Option UImagePipelineStageAsset) (st st2 : StageLoopState σ) (ev : PipelineEvent) :
    Prop :=
  (∃ status, ev = PipelineEvent.InitModel i status) ∨
  (∃ stage L, cs = some stage ∧
    buildStageLayers st.LastStageResult stage.Layers = some L ∧
    ev = PipelineEvent.LayersBuilt i st.LastStageResult L) ∨
  (∃ stage ins procs r, cs = some stage ∧
    ev = PipelineEvent.Generate i (stageInputAtGenerate Input stage ins procs) r ∧
    st2.LastStageResult = r ∧ st2.Crashed = false)

/-- The result `last` is the last stage result that stage `j` finds, read off the
trace `evs`: the initial result `init` when no stage before `j` generated, and
otherwise the result of the generation with the greatest stage index below
`j` (the trace holds no other result for that stage). -/
def LatestGenerate (init : FStableDiffusionImageResult) (evs : List PipelineEvent) (j : Nat)
    (last : FStableDiffusionImageResult) : Prop :=
  (last = init ∧ ∀ k inp r, PipelineEvent.Generate k inp r ∈ evs → j ≤ k) ∨
  ∃ k inp, k < j ∧ PipelineEvent.Generate k inp last ∈ evs ∧
    ∀ k2 inp2 r2, PipelineEvent.Generate k2 inp2 r2 ∈ evs → k2 < j →
      k2 ≤ k ∧ (k2 = k → r2 = last)

/-- The invariant of the stage loop before stage `i`, for a loop started in a
state whose last stage result is `init`. -/
def TraceInv {σ : Type} (init : FStableDiffusionImageResult) (i : Nat) (st : StageLoopState σ) :
    Prop :=
  (i = 0 → st.LastStageResult = init) ∧
  (∀ k inp r, PipelineEvent.Generate k inp r ∈ st.Events → k < i) ∧
  LatestGenerate init st.Events i st.LastStageResult ∧
  ∀ j last L, PipelineEvent.LayersBuilt j last L ∈ st.Events →
    j < i ∧ (j = 0 → last = init) ∧
    LatestGenerate init st.Events j last ∧
    ∀ ctx ∈ L, ctx.LatentData =
      (if ctx.OutputType = EImageType.Latent ∧ last.Completed = true then last.OutLatent else [])

/-! ## The claim's reading of the options scan -/

/-- The section that the options scan is said to return: the last options
section of the track whose frame range, half-open as for prompt sections, holds
`t`. -/
def specLastMatchingOptionsSection (track : MovieSceneTrack) (t : FFrameNumber) :
    Option UStableDiffusionOptionsSection :=
  (track.Sections.filterMap fun sec =>
    match sec with
    | .options s => if s.StartFrame ≤ t ∧ t < s.EndFrame then some s else none
    | _ => none).getLast?

/-- Whether `Cast<UStableDiffusionOptionsSection>` succeeds on the entry. -/
def MovieSceneSection.isOptions : MovieSceneSection → Bool
  | .options _ => true
  | _ => false

/-! ## Example inputs -/

/-- Member initialisers used by the examples. -/
def exampleDefaults : HeaderDefaults :=
  { Strength := 1, Iterations := 50, Seed := -1, GuidanceScale := 7, LoraWeight := 1
    OutputType := EImageType.Pixels, Completed := false, Upsampled := false
    OutWidth := 0, OutHeight := 0 }

/-- The prompt section of the scenario: "a fox", weight curve constant 1, frames 0 to 10. -/
def foxSection : UStableDiffusionPromptMovieSceneSection :=
  { Active := true
    Prompt := ⟨"a fox", 0⟩
    WeightChannel := Channel.const 1
    InclusiveStartFrame := 0
    ExclusiveEndFrame := 10 }

/-- A render pass whose timeline holds the one prompt track of `foxSection`. -/
def foxPass : RenderPass :=
  { OptionsTrack := none
    PromptTracks := [⟨[MovieSceneSection.prompt foxSection]⟩]
    LayerProcessorTracks := []
    AllowNSFW := false
    PaddingMode := 0
    DebugPythonImages := false }

/-- A stage asset without layers, told apart by its pipeline handle. -/
def plainStage (Pipeline : Nat) (OutputType : EImageType) : UImagePipelineStageAsset :=
  { Model := some 0, Pipeline := Pipeline, LORAAsset := 0, TextualInversionAsset := 0
    Layers := [], OutputType := OutputType
    OverrideInputOptions :=
      { OverrideGuidanceScale := false, GuidanceScale := 0
        OverrideLoraWeight := false, LoraWeight := 0 } }

/-- An options section over the frames `start` to `stop` with constant curves. -/
def constOptionsSection (Stages : List (Option UImagePipelineStageAsset)) (Strength : Scalar)
    (Iterations Seed : Int) (start stop : FFrameNumber) : UStableDiffusionOptionsSection :=
  { PipelineStages := Stages
    StrengthChannel := Channel.const Strength
    IterationsChannel := Channel.const Iterations
    SeedChannel := Channel.const Seed
    Active := true
    StartFrame := start
    EndFrame := stop }

/-- An options track with two sections that follow each other in time. -/
def twoOptionsTrack : MovieSceneTrack :=
  ⟨[MovieSceneSection.options
      (constOptionsSection [some (plainStage 1 EImageType.Pixels)] (1 / 2) 20 7 0 100),
    MovieSceneSection.options
      (constOptionsSection [some (plainStage 2 EImageType.Pixels)] (1 / 4) 30 9 100 200)]⟩

/-- The options of the default-constructed input of the examples. -/
def exampleOptions : FStableDiffusionGenerationOptions :=
  { InSizeX := 8, InSizeY := 8, OutSizeX := 8, OutSizeY := 8
    Strength := 1, Iterations := 50, Seed := -1
    GuidanceScale := 7, LoraWeight := 1, Prompts := [] }

/-- An engine for the examples.  A stage loads unless its pipeline handle is 0;
a generation completes into the texture it is given, reports `scale` times the
requested output size and yields the latent `latentOf` of the stage output
type; an exported file reloads as a 2 by 3 image unless it is "missing.exr";
an upsample fills its destination and reports four times the input size. -/
def testEngine (latentOf : EImageType → List Nat) (scale : Int) : Engine EModelStatus :=
  { InitModel := fun _ _ stage _ _ =>
      if stage.Pipeline = 0 then EModelStatus.Failed else EModelStatus.Loaded
    GetModelStatus := fun w => w
    CaptureLayer := fun w _ _ => (w, [255])
    GenerateImageFromStartImage := fun w inp tex =>
      (w, { Completed := true, Upsampled := false, OutTexture := tex
            OutLatent := latentOf inp.OutputType
            OutWidth := scale * inp.Options.OutSizeX
            OutHeight := scale * inp.Options.OutSizeY })
    ReadPixelsNum := fun tex =>
      match tex with
      | some tx => tx.SizeX * tx.SizeY
      | none => 0
    ReleaseModel := fun _ => EModelStatus.Unloaded
    StartUpsample := fun w => w
    StopUpsample := fun w => w
    ImportFileAsTexture2D := fun file => if file = "missing.exr" then none else some ⟨2, 3⟩
    ColorBufferToTexture := fun _ size => ⟨size.1, size.2⟩
    UpsampleImage := fun w inp dest =>
      (w, { inp with Completed := true, Upsampled := true, OutTexture := dest
                     OutWidth := 4 * inp.OutWidth, OutHeight := 4 * inp.OutHeight })
    ResolveFilename := fun dir pre file => dir ++ "/" ++ pre ++ file }

/-- A bridge that yields a latent for latent stages only. -/
def latentOnly : EImageType → List Nat :=
  fun ty => if ty = EImageType.Latent then [1, 2, 3] else []

/-- A bridge that yields a latent whatever the stage output type. -/
def latentAlways : EImageType → List Nat := fun _ => [1, 2, 3]

/-- A layer declared `Latent`, with stored options and no processor. -/
def latentLayer : FLayerProcessorContext :=
  { OutputType := EImageType.Latent, LayerType := 0, Role := 0
    Processor := none, ProcessorOptions := some ⟨[("Strength", 1)]⟩
    LatentData := [], LayerPixels := [] }

/-- A stage with the one layer `latentLayer`. -/
def latentStage : UImagePipelineStageAsset :=
  { plainStage 2 EImageType.Latent with Layers := [latentLayer] }

/-- A render pass whose options section lists `Stages`. -/
def stagesPass (Stages : List (Option UImagePipelineStageAsset)) : RenderPass :=
  { OptionsTrack :=
      some ⟨[MovieSceneSection.options (constOptionsSection Stages 1 20 7 0 100)]⟩
    PromptTracks := []
    LayerProcessorTracks := []
    AllowNSFW := false
    PaddingMode := 0
    DebugPythonImages := false }

/-- The frame-level input of the stage loop examples. -/
def exampleInput : FStableDiffusionInput :=
  { PreviewIterationRate := -1, DebugPythonImages := false, Options := exampleOptions
    OutputType := EImageType.Pixels, InputLayers := [], ProcessedLayers := [] }

/-- The state in which the examples start the stage loop. -/
def exampleStart : StageLoopState EModelStatus :=
  { World := EModelStatus.Unloaded, LastStageResult := exampleDefaults.ImageResult
    Events := [], Crashed := false }

/-- What the example bridge returns for a stage of output type `ty` at size 8. -/
def exampleResult (latentOf : EImageType → List Nat) (ty : EImageType) :
    FStableDiffusionImageResult :=
  { Completed := true, Upsampled := false, OutTexture := some ⟨8, 8⟩
    OutLatent := latentOf ty, OutWidth := 8, OutHeight := 8 }

/-- What the stage loop makes of `latentLayer` when it inherits `Latent`. -/
def latentLayerWith (Latent : List Nat) : FLayerProcessorContext :=
  { latentLayer with LatentData := Latent }

/-- The settings of the export examples. -/
def exampleSettings : ExportSettings :=
  { bUpscale := true, OutputDirectory := "out", UpscaledFrameName := "up_" }

/-- A layer-processor section for layer 0 of stage 0 over the frames 0 to 10,
whose curve named "Strength" is constant 5. -/
def strengthSection : UStableDiffusionLayerProcessorSection :=
  { Active := true
    StartFrame := some 0
    EndFrame := some 10
    LayerIndex := 0
    ImagePipelineStageIndex := 0
    LayerProcessorOptionOverride := none
    ScalarParameterNamesAndCurves := [⟨"Strength", Channel.const 5⟩] }

/-! ## Timeline scan: lemmas -/

theorem promptSectionStep_prompt (t : FFrameNumber) (o : FStableDiffusionGenerationOptions)
    (s : UStableDiffusionPromptMovieSceneSection) :
    promptSectionStep t o (MovieSceneSection.prompt s) =
      if s.Active = true ∧ s.InclusiveStartFrame < t ∧ t < s.ExclusiveEndFrame then
        o.AddPrompt { s.Prompt with Weight := s.WeightChannel.Evaluate t s.Prompt.Weight }
      else o := by
  unfold promptSectionStep
  by_cases ha : s.Active = true <;> by_cases hr : s.InclusiveStartFrame < t ∧ t < s.ExclusiveEndFrame
    <;> simp [ha, hr]

theorem optionsScan_foldl_not_options (t : FFrameNumber) (secs : List MovieSceneSection)
    (h : ∀ x ∈ secs, x.isOptions = false) (g : GlobalOptions) :
    secs.foldl (optionsSectionStep t) g = g := by
  induction secs generalizing g with
  | nil => rfl
  | cons x xs ih =>
      have hx : x.isOptions = false := h x (List.mem_cons_self x xs)
      have hstep : optionsSectionStep t g x = g := by
        cases x <;> simp_all [optionsSectionStep, MovieSceneSection.isOptions]
      rw [List.foldl_cons, hstep]
      exact ih (fun y hy => h y (List.mem_cons_of_mem x hy)) g

/-! ## Timeline scan: claims -/

/-- C1: the prompt scan leaves out a section at `evalTime == startFrame`.  For
every prompt section and every input, the scan step taken at the section's own
inclusive start frame adds nothing; for the active section "a fox" over frames
0 to 10 the prompt list resolved at time 0 is empty. -/
theorem prompt_scan_excludes_start_frame :
    (∀ (s : UStableDiffusionPromptMovieSceneSection) (o : FStableDiffusionGenerationOptions),
      promptSectionStep s.InclusiveStartFrame o (MovieSceneSection.prompt s) = o) ∧
    (frameInput foxPass exampleDefaults (8, 8) 0).Options.Prompts = [] := by
  refine ⟨fun s o => ?_, ?_⟩
  · rw [promptSectionStep_prompt]
    simp
  · simp [frameInput, foxPass, buildCombinedPrompt, promptSectionStep_prompt, foxSection,
      resolveGlobalOptions]

/-- C9: with a single active prompt section of text `p`, weight curve constant
`w`, start frame `s` and end frame `e`, the frame-level prompt list is exactly
`[p with weight w]` at every time strictly between `s` and `e`, and is empty at
time `e`. -/
theorem single_prompt_section_resolution (P : RenderPass) (D : HeaderDefaults) (Size : Int × Int)
    (p : String) (w w0 : Scalar) (s e : FFrameNumber)
    (hP : P.PromptTracks =
      [⟨[MovieSceneSection.prompt
          { Active := true, Prompt := ⟨p, w0⟩, WeightChannel := Channel.const w
            InclusiveStartFrame := s, ExclusiveEndFrame := e }]⟩]) :
    (∀ t : FFrameNumber, s < t → t < e → (frameInput P D Size t).Options.Prompts = [⟨p, w⟩]) ∧
    (frameInput P D Size e).Options.Prompts = [] := by
  constructor
  · intro t hs he
    simp [frameInput, hP, buildCombinedPrompt, promptSectionStep_prompt, hs, he,
      FStableDiffusionGenerationOptions.AddPrompt, Channel.Evaluate, Channel.const]
  · simp [frameInput, hP, buildCombinedPrompt, promptSectionStep_prompt]

/-- Witness of C9: "a fox", weight 1, frames 0 to 10, resolved at times 5 and 10. -/
theorem single_prompt_section_resolution_witness :
    (frameInput foxPass exampleDefaults (8, 8) 5).Options.Prompts = [⟨"a fox", 1⟩] ∧
    (frameInput foxPass exampleDefaults (8, 8) 10).Options.Prompts = [] :=
  ⟨(single_prompt_section_resolution foxPass exampleDefaults (8, 8) "a fox" 1 0 0 10 rfl).1 5
      (by decide) (by decide),
    (single_prompt_section_resolution foxPass exampleDefaults (8, 8) "a fox" 1 0 0 10 rfl).2⟩

/-- C10, as stated, fails: on a track whose first section covers frames 0 to 100
and whose second section covers frames 100 to 200, only the first section
matches at time 50, yet the scan returns the stage list, strength, iterations
and seed of the second. -/
theorem options_scan_ignores_frame_range :
    (specLastMatchingOptionsSection twoOptionsTrack 50).map (fun s => s.PipelineStages) =
      some [some (plainStage 1 EImageType.Pixels)] ∧
    resolveGlobalOptions (some twoOptionsTrack) 50 exampleOptions =
      { Stages := [some (plainStage 2 EImageType.Pixels)]
        Strength := 1 / 4, Iterations := 30, Seed := 9 } := by
  constructor
  · simp [specLastMatchingOptionsSection, twoOptionsTrack, constOptionsSection]
  · simp [resolveGlobalOptions, twoOptionsTrack, constOptionsSection, optionsSectionStep,
      Channel.Evaluate, Channel.const]

/-- C10, amended: the options scan applies no frame-range test.  It returns the
stage list of the last options section of the track, at every time; strength,
iterations and seed are what that section's curves write at the time over the
values left by the sections before it (so the curve value itself whenever the
curve has one).  Without an options track, or on a track without an options
section, it returns the default values and an empty stage list. -/
theorem options_scan_last_section_wins (t : FFrameNumber)
    (d : FStableDiffusionGenerationOptions) :
    (∀ (pre post : List MovieSceneSection) (s : UStableDiffusionOptionsSection),
      (∀ x ∈ post, x.isOptions = false) →
        (resolveGlobalOptions (some ⟨pre ++ MovieSceneSection.options s :: post⟩) t d).Stages =
          s.PipelineStages ∧
        (resolveGlobalOptions (some ⟨pre ++ MovieSceneSection.options s :: post⟩) t d).Strength =
          s.StrengthChannel.Evaluate t (resolveGlobalOptions (some ⟨pre⟩) t d).Strength ∧
        (resolveGlobalOptions (some ⟨pre ++ MovieSceneSection.options s :: post⟩) t d).Iterations =
          s.IterationsChannel.Evaluate t (resolveGlobalOptions (some ⟨pre⟩) t d).Iterations ∧
        (resolveGlobalOptions (some ⟨pre ++ MovieSceneSection.options s :: post⟩) t d).Seed =
          s.SeedChannel.Evaluate t (resolveGlobalOptions (some ⟨pre⟩) t d).Seed ∧
        (∀ v, s.StrengthChannel.eval t = some v →
          (resolveGlobalOptions (some ⟨pre ++ MovieSceneSection.options s :: post⟩) t d).Strength
            = v) ∧
        (∀ v, s.IterationsChannel.eval t = some v →
          (resolveGlobalOptions (some ⟨pre ++ MovieSceneSection.options s :: post⟩) t d).Iterations
            = v) ∧
        (∀ v, s.SeedChannel.eval t = some v →
          (resolveGlobalOptions (some ⟨pre ++ MovieSceneSection.options s :: post⟩) t d).Seed
            = v)) ∧
    (∀ secs : List MovieSceneSection, (∀ x ∈ secs, x.isOptions = false) →
      resolveGlobalOptions (some ⟨secs⟩) t d =
        { Stages := [], Strength := d.Strength, Iterations := d.Iterations, Seed := d.Seed }) ∧
    resolveGlobalOptions none t d =
      { Stages := [], Strength := d.Strength, Iterations := d.Iterations, Seed := d.Seed } := by
  refine ⟨?_, ?_, rfl⟩
  · intro pre post s hpost
    have key : resolveGlobalOptions (some ⟨pre ++ MovieSceneSection.options s :: post⟩) t d =
        optionsSectionStep t (resolveGlobalOptions (some ⟨pre⟩) t d)
          (MovieSceneSection.options s) := by
      simp only [resolveGlobalOptions, List.foldl_append, List.foldl_cons]
      exact optionsScan_foldl_not_options t post hpost _
    rw [key]
    refine ⟨rfl, rfl, rfl, rfl, ?_, ?_, ?_⟩ <;>
    · intro v hv
      simp [optionsSectionStep, Channel.Evaluate, hv]
  · intro secs hsecs
    simp only [resolveGlobalOptions]
    exact optionsScan_foldl_not_options t secs hsecs _

/-- Witness of C10 (amended): the two-section track at time 50, and a track
holding no options section. -/
theorem options_scan_last_section_wins_witness :
    ((resolveGlobalOptions (some twoOptionsTrack) 50 exampleOptions).Stages =
        [some (plainStage 2 EImageType.Pixels)] ∧
      (resolveGlobalOptions (some twoOptionsTrack) 50 exampleOptions).Strength = 1 / 4) ∧
    resolveGlobalOptions (some ⟨[MovieSceneSection.null, MovieSceneSection.other]⟩) 50
        exampleOptions =
      { Stages := [], Strength := 1, Iterations := 50, Seed := -1 } := by
  have h := options_scan_last_section_wins 50 exampleOptions
  refine ⟨?_, ?_⟩
  · have h1 := h.1
      [MovieSceneSection.options
        (constOptionsSection [some (plainStage 1 EImageType.Pixels)] (1 / 2) 20 7 0 100)] []
      (constOptionsSection [some (plainStage 2 EImageType.Pixels)] (1 / 4) 30 9 100 200)
      (by simp)
    exact ⟨h1.1, h1.2.2.2.2.1 (1 / 4) rfl⟩
  · exact h.2.1 [MovieSceneSection.null, MovieSceneSection.other]
      (by simp [MovieSceneSection.isOptions])

/-! ## Stage loop: lemmas -/

theorem buildStageLayers_spec (last : FStableDiffusionImageResult) :
    ∀ (defs L : List FLayerProcessorContext), buildStageLayers last defs = some L →
      List.Forall₂ (fun d ctx => buildLayerContext last d = some ctx) defs L := by
  intro defs
  induction defs with
  | nil =>
      intro L h
      simp [buildStageLayers] at h
      subst h
      exact List.Forall₂.nil
  | cons d ds ih =>
      intro L h
      unfold buildStageLayers at h
      split at h
      · simp at h
      · rename_i ctx hctx
        split at h
        · simp at h
        · rename_i built hbuilt
          simp at h
          subst h
          exact List.Forall₂.cons hctx (ih built hbuilt)

theorem buildLayerContext_fields (last : FStableDiffusionImageResult)
    (d ctx : FLayerProcessorContext) (h : buildLayerContext last d = some ctx) :
    ctx.OutputType = d.OutputType ∧
    ctx.LatentData =
      (if d.OutputType = EImageType.Latent ∧ last.Completed = true then last.OutLatent else []) := by
  unfold buildLayerContext at h
  obtain ⟨opts, -, rfl⟩ := Option.map_eq_some'.mp h
  exact ⟨rfl, rfl⟩

theorem stageStep_events {σ : Type} (E : Engine σ) (P : RenderPass) (Uninit : Scalar)
    (Input : FStableDiffusionInput) (OutTexture : Option UTexture2D) (t : FFrameNumber)
    (i : Nat) (cs : Option UImagePipelineStageAsset) (st : StageLoopState σ) :
    ∃ new, (stageStep E P Uninit Input OutTexture t i cs st).Events = st.Events ++ new ∧
      (∀ ev ∈ new,
        StageEvent Input i cs st (stageStep E P Uninit Input OutTexture t i cs st) ev) ∧
      ((stageStep E P Uninit Input OutTexture t i cs st).LastStageResult = st.LastStageResult ∨
        ∃ inp, PipelineEvent.Generate i inp
          (stageStep E P Uninit Input OutTexture t i cs st).LastStageResult ∈ new) := by
  unfold StageEvent stageStep
  split
  · exact ⟨[], by simp⟩
  · rename_i hcr
    split
    · exact ⟨[], by simp⟩
    · rename_i stage
      split
      · exact ⟨[], by simp⟩
      · rename_i m hm
        simp only []
        split
        · exact ⟨_, rfl, by simp⟩
        · split
          · exact ⟨_, rfl, by simp⟩
          · rename_i L hL
            unfold generateStage
            split
            · exact ⟨_, by simp; rfl, by simp [hL]⟩
            · simp only []
              split
              · refine ⟨_, by simp; rfl, ?_, ?_⟩
                · intro ev hev
                  simp at hev
                  rcases hev with rfl | rfl | rfl
                  · simp
                  · simp [hL]
                  · right; right
                    exact ⟨stage, _, _, _, rfl, rfl, rfl, by simpa using hcr⟩
                · right
                  exact ⟨_, by simp; rfl⟩
              · exact ⟨_, by simp; rfl, by simp [hL]⟩

theorem buildStageLayers_latent (last : FStableDiffusionImageResult)
    (defs L : List FLayerProcessorContext) (h : buildStageLayers last defs = some L) :
    ∀ ctx ∈ L, ctx.LatentData =
      (if ctx.OutputType = EImageType.Latent ∧ last.Completed = true then last.OutLatent else []) := by
  have hf := buildStageLayers_spec last defs L h
  clear h
  intro ctx hctx
  obtain ⟨d, -, hd⟩ : ∃ d, d ∈ defs ∧ buildLayerContext last d = some ctx := by
    induction hf with
    | nil => simp at hctx
    | cons hd _ ih =>
        rcases List.mem_cons.mp hctx with rfl | hmem
        · exact ⟨_, List.mem_cons_self _ _, hd⟩
        · obtain ⟨d, hdm, hdb⟩ := ih hmem
          exact ⟨d, List.mem_cons_of_mem _ hdm, hdb⟩
  have := buildLayerContext_fields last d ctx hd
  rw [this.2, this.1]

theorem latestGenerate_append (init : FStableDiffusionImageResult)
    (evs new : List PipelineEvent) (j : Nat) (last : FStableDiffusionImageResult)
    (h : LatestGenerate init evs j last)
    (hnew : ∀ k inp r, PipelineEvent.Generate k inp r ∈ new → j ≤ k) :
    LatestGenerate init (evs ++ new) j last := by
  rcases h with ⟨hinit, hnone⟩ | ⟨k, inp, hk, hmem, hmax⟩
  · refine Or.inl ⟨hinit, ?_⟩
    intro k inp r hin
    rcases List.mem_append.mp hin with hold | hnw
    · exact hnone k inp r hold
    · exact hnew k inp r hnw
  · refine Or.inr ⟨k, inp, hk, List.mem_append_left _ hmem, ?_⟩
    intro k2 inp2 r2 hin hlt
    rcases List.mem_append.mp hin with hold | hnw
    · exact hmax k2 inp2 r2 hold hlt
    · have := hnew k2 inp2 r2 hnw
      omega

theorem stageStep_inv {σ : Type} (E : Engine σ) (P : RenderPass) (Uninit : Scalar)
    (Input : FStableDiffusionInput) (OutTexture : Option UTexture2D) (t : FFrameNumber)
    (init : FStableDiffusionImageResult)
    (i : Nat) (cs : Option UImagePipelineStageAsset) (st : StageLoopState σ)
    (h : TraceInv init i st) :
    TraceInv init (i + 1) (stageStep E P Uninit Input OutTexture t i cs st) := by
  obtain ⟨new, hev, hnew, hlast⟩ := stageStep_events E P Uninit Input OutTexture t i cs st
  obtain ⟨h0, hidx, hl, hb⟩ := h
  have hgen : ∀ k inp r, PipelineEvent.Generate k inp r ∈ new →
      k = i ∧ r = (stageStep E P Uninit Input OutTexture t i cs st).LastStageResult := by
    intro k inp r hin
    rcases hnew _ hin with ⟨status, hs⟩ | ⟨stage, L2, -, -, hs⟩ |
      ⟨stage, ins, procs, r2, -, hs, hr, -⟩
    · cases hs
    · cases hs
    · cases hs
      exact ⟨rfl, hr.symm⟩
  have hge : ∀ k inp r, PipelineEvent.Generate k inp r ∈ new → i ≤ k := by
    intro k inp r hin
    have := (hgen k inp r hin).1
    omega
  refine ⟨by omega, ?_, ?_, ?_⟩
  · intro k inp r hin
    rw [hev] at hin
    rcases List.mem_append.mp hin with hold | hnw
    · have := hidx k inp r hold
      omega
    · have := (hgen k inp r hnw).1
      omega
  · rw [hev]
    by_cases hex : ∃ inp, PipelineEvent.Generate i inp
        (stageStep E P Uninit Input OutTexture t i cs st).LastStageResult ∈ new
    · obtain ⟨inp, hin⟩ := hex
      refine Or.inr ⟨i, inp, by omega, List.mem_append_right _ hin, ?_⟩
      intro k2 inp2 r2 hin2 _
      rcases List.mem_append.mp hin2 with hold | hnw
      · have := hidx k2 inp2 r2 hold
        exact ⟨by omega, fun hk => by omega⟩
      · have := hgen k2 inp2 r2 hnw
        exact ⟨by omega, fun _ => this.2⟩
    · have hnone : ∀ k inp r, PipelineEvent.Generate k inp r ∉ new := by
        intro k inp r hin
        obtain ⟨hk, hr⟩ := hgen k inp r hin
        subst hk
        subst hr
        exact hex ⟨inp, hin⟩
      have heq : (stageStep E P Uninit Input OutTexture t i cs st).LastStageResult =
          st.LastStageResult := by
        rcases hlast with heq | ⟨inp, hin⟩
        · exact heq
        · exact absurd hin (hnone _ _ _)
      rw [heq]
      rcases hl with ⟨hinit, hnoold⟩ | ⟨k, inp, hk, hmem, hmax⟩
      · refine Or.inl ⟨hinit, ?_⟩
        intro k inp r hin
        rcases List.mem_append.mp hin with hold | hnw
        · have h1 := hidx k inp r hold
          have h2 := hnoold k inp r hold
          omega
        · exact absurd hnw (hnone _ _ _)
      · refine Or.inr ⟨k, inp, by omega, List.mem_append_left _ hmem, ?_⟩
        intro k2 inp2 r2 hin _
        rcases List.mem_append.mp hin with hold | hnw
        · exact hmax k2 inp2 r2 hold (hidx k2 inp2 r2 hold)
        · exact absurd hnw (hnone _ _ _)
  · intro j last L hmem
    rw [hev] at hmem
    rcases List.mem_append.mp hmem with hold | hnw
    · obtain ⟨hj, hj0, hjl, hctx⟩ := hb j last L hold
      refine ⟨by omega, hj0, ?_, hctx⟩
      rw [hev]
      refine latestGenerate_append init st.Events new j last hjl ?_
      intro k inp r hin
      have := hge k inp r hin
      omega
    · rcases hnew _ hnw with ⟨status, hs⟩ | ⟨stage, L2, -, hL2, heq⟩ |
        ⟨stage, ins, procs, r, -, heq, -⟩
      · cases hs
      · cases heq
        refine ⟨by omega, h0, ?_, buildStageLayers_latent _ _ _ hL2⟩
        rw [hev]
        exact latestGenerate_append init st.Events new i st.LastStageResult hl hge
      · cases heq

theorem runStages_inv {σ : Type} (E : Engine σ) (P : RenderPass) (Uninit : Scalar)
    (Input : FStableDiffusionInput) (OutTexture : Option UTexture2D) (t : FFrameNumber)
    (init : FStableDiffusionImageResult) :
    ∀ (stages : List (Option UImagePipelineStageAsset)) (i : Nat) (st : StageLoopState σ),
      TraceInv init i st →
      TraceInv init (i + stages.length) (runStages E P Uninit Input OutTexture t i stages st) := by
  intro stages
  induction stages with
  | nil => intro i st h; simpa [runStages] using h
  | cons s rest ih =>
      intro i st h
      have := ih (i + 1) _ (stageStep_inv E P Uninit Input OutTexture t init i s st h)
      simpa [runStages, Nat.add_assoc, Nat.add_comm 1] using this

theorem runStages_append {σ : Type} (E : Engine σ) (P : RenderPass) (Uninit : Scalar)
    (Input : FStableDiffusionInput) (OutTexture : Option UTexture2D) (t : FFrameNumber) :
    ∀ (xs ys : List (Option UImagePipelineStageAsset)) (j : Nat) (st : StageLoopState σ),
      runStages E P Uninit Input OutTexture t j (xs ++ ys) st =
        runStages E P Uninit Input OutTexture t (j + xs.length) ys
          (runStages E P Uninit Input OutTexture t j xs st) := by
  intro xs
  induction xs with
  | nil => intro ys j st; rfl
  | cons x xs ih =>
      intro ys j st
      rw [List.cons_append, runStages, ih, List.length_cons, runStages]
      congr 1
      omega

theorem buildStageLayers_total (last : FStableDiffusionImageResult) :
    ∀ defs : List FLayerProcessorContext, (∀ d ∈ defs, allocateOptions d ≠ none) →
      ∃ L, buildStageLayers last defs = some L := by
  intro defs
  induction defs with
  | nil => intro _; exact ⟨[], rfl⟩
  | cons d ds ih =>
      intro h
      obtain ⟨L, hL⟩ := ih (fun x hx => h x (List.mem_cons_of_mem d hx))
      obtain ⟨opts, hopts⟩ := Option.ne_none_iff_exists'.mp (h d (List.mem_cons_self d ds))
      rw [← Option.isSome_iff_exists]
      simp [buildStageLayers, buildLayerContext, hopts, hL]

theorem stageStep_load_failed {σ : Type} (E : Engine σ) (P : RenderPass) (Uninit : Scalar)
    (Input : FStableDiffusionInput) (OutTexture : Option UTexture2D) (t : FFrameNumber)
    (i : Nat) (stage : UImagePipelineStageAsset) (m : Nat) (st : StageLoopState σ)
    (hcr : st.Crashed = false) (hm : stage.Model = some m)
    (hst : E.GetModelStatus (E.InitModel st.World m stage P.AllowNSFW P.PaddingMode) ≠
      EModelStatus.Loaded) :
    stageStep E P Uninit Input OutTexture t i (some stage) st =
      { st with
        World := E.InitModel st.World m stage P.AllowNSFW P.PaddingMode
        Events := st.Events ++ [PipelineEvent.InitModel i
          (E.GetModelStatus (E.InitModel st.World m stage P.AllowNSFW P.PaddingMode))] } := by
  simp [stageStep, hcr, hm, hst]

theorem stageStep_init_first {σ : Type} (E : Engine σ) (P : RenderPass) (Uninit : Scalar)
    (Input : FStableDiffusionInput) (OutTexture : Option UTexture2D) (t : FFrameNumber)
    (i : Nat) (stage : UImagePipelineStageAsset) (m : Nat) (st : StageLoopState σ)
    (hcr : st.Crashed = false) (hm : stage.Model = some m) :
    ∃ tail, (stageStep E P Uninit Input OutTexture t i (some stage) st).Events =
      st.Events ++ PipelineEvent.InitModel i
        (E.GetModelStatus (E.InitModel st.World m stage P.AllowNSFW P.PaddingMode)) :: tail := by
  unfold stageStep
  simp only [hcr, hm]
  simp only [Bool.false_eq_true, if_false]
  split
  · exact ⟨[], rfl⟩
  · split
    · exact ⟨[], rfl⟩
    · unfold generateStage
      split
      · exact ⟨_, by simp; rfl⟩
      · simp only []
        split
        · exact ⟨_, by simp; rfl⟩
        · exact ⟨_, by simp; rfl⟩

theorem stageStep_layers_built {σ : Type} (E : Engine σ) (P : RenderPass) (Uninit : Scalar)
    (Input : FStableDiffusionInput) (OutTexture : Option UTexture2D) (t : FFrameNumber)
    (i : Nat) (stage : UImagePipelineStageAsset) (m : Nat) (st : StageLoopState σ)
    (L : List FLayerProcessorContext)
    (hcr : st.Crashed = false) (hm : stage.Model = some m)
    (hst : E.GetModelStatus (E.InitModel st.World m stage P.AllowNSFW P.PaddingMode) =
      EModelStatus.Loaded)
    (hL : buildStageLayers st.LastStageResult stage.Layers = some L) :
    PipelineEvent.LayersBuilt i st.LastStageResult L ∈
      (stageStep E P Uninit Input OutTexture t i (some stage) st).Events := by
  unfold stageStep
  simp only [hcr, hm, hst, hL]
  simp only [Bool.false_eq_true, if_false, ne_eq, not_true_eq_false]
  unfold generateStage
  split
  · simp
  · simp only []
    split <;> simp

theorem stageStep_generates {σ : Type} (E : Engine σ) (P : RenderPass) (Uninit : Scalar)
    (Input : FStableDiffusionInput) (OutTexture : Option UTexture2D) (t : FFrameNumber)
    (i : Nat) (stage : UImagePipelineStageAsset) (m : Nat) (st : StageLoopState σ)
    (L Layers : List FLayerProcessorContext)
    (hcr : st.Crashed = false) (hm : stage.Model = some m)
    (hst : E.GetModelStatus (E.InitModel st.World m stage P.AllowNSFW P.PaddingMode) =
      EModelStatus.Loaded)
    (hL : buildStageLayers st.LastStageResult stage.Layers = some L)
    (hA : ApplyLayerOptions P.LayerProcessorTracks Uninit L i t = some Layers)
    (hst2 : E.GetModelStatus (captureLayers E (Input.Options.OutSizeX, Input.Options.OutSizeY)
      (E.InitModel st.World m stage P.AllowNSFW P.PaddingMode) Layers).1 = EModelStatus.Loaded) :
    stageStep E P Uninit Input OutTexture t i (some stage) st =
      { st with
        World := (E.GenerateImageFromStartImage
          (captureLayers E (Input.Options.OutSizeX, Input.Options.OutSizeY)
            (E.InitModel st.World m stage P.AllowNSFW P.PaddingMode) Layers).1
          (stageInputAtGenerate Input stage
            (captureLayers E (Input.Options.OutSizeX, Input.Options.OutSizeY)
              (E.InitModel st.World m stage P.AllowNSFW P.PaddingMode) Layers).2.1
            (captureLayers E (Input.Options.OutSizeX, Input.Options.OutSizeY)
              (E.InitModel st.World m stage P.AllowNSFW P.PaddingMode) Layers).2.2)
          OutTexture).1
        LastStageResult := (E.GenerateImageFromStartImage
          (captureLayers E (Input.Options.OutSizeX, Input.Options.OutSizeY)
            (E.InitModel st.World m stage P.AllowNSFW P.PaddingMode) Layers).1
          (stageInputAtGenerate Input stage
            (captureLayers E (Input.Options.OutSizeX, Input.Options.OutSizeY)
              (E.InitModel st.World m stage P.AllowNSFW P.PaddingMode) Layers).2.1
            (captureLayers E (Input.Options.OutSizeX, Input.Options.OutSizeY)
              (E.InitModel st.World m stage P.AllowNSFW P.PaddingMode) Layers).2.2)
          OutTexture).2
        Events := st.Events ++
          [PipelineEvent.InitModel i EModelStatus.Loaded,
            PipelineEvent.LayersBuilt i st.LastStageResult L,
            PipelineEvent.Generate i
              (stageInputAtGenerate Input stage
                (captureLayers E (Input.Options.OutSizeX, Input.Options.OutSizeY)
                  (E.InitModel st.World m stage P.AllowNSFW P.PaddingMode) Layers).2.1
                (captureLayers E (Input.Options.OutSizeX, Input.Options.OutSizeY)
                  (E.InitModel st.World m stage P.AllowNSFW P.PaddingMode) Layers).2.2)
              (E.GenerateImageFromStartImage
                (captureLayers E (Input.Options.OutSizeX, Input.Options.OutSizeY)
                  (E.InitModel st.World m stage P.AllowNSFW P.PaddingMode) Layers).1
                (stageInputAtGenerate Input stage
                  (captureLayers E (Input.Options.OutSizeX, Input.Options.OutSizeY)
                    (E.InitModel st.World m stage P.AllowNSFW P.PaddingMode) Layers).2.1
                  (captureLayers E (Input.Options.OutSizeX, Input.Options.OutSizeY)
                    (E.InitModel st.World m stage P.AllowNSFW P.PaddingMode) Layers).2.2)
                OutTexture).2] } := by
  have hcap : captureStage E Input stage
      (E.InitModel st.World m stage P.AllowNSFW P.PaddingMode) Layers =
      captureLayers E (Input.Options.OutSizeX, Input.Options.OutSizeY)
        (E.InitModel st.World m stage P.AllowNSFW P.PaddingMode) Layers := rfl
  unfold stageStep
  simp only [hcr, hm, hst, hL]
  simp only [Bool.false_eq_true, if_false, ne_eq, not_true_eq_false]
  unfold generateStage
  simp only [hA, hcap, hst2, if_true, List.append_assoc, List.singleton_append]
  rfl

theorem foldl_promptSectionStep_size (t : FFrameNumber) (secs : List MovieSceneSection) :
    ∀ o : FStableDiffusionGenerationOptions,
      (secs.foldl (promptSectionStep t) o).OutSizeX = o.OutSizeX ∧
      (secs.foldl (promptSectionStep t) o).OutSizeY = o.OutSizeY := by
  induction secs with
  | nil => intro o; exact ⟨rfl, rfl⟩
  | cons x xs ih =>
      intro o
      have hx : (promptSectionStep t o x).OutSizeX = o.OutSizeX ∧
          (promptSectionStep t o x).OutSizeY = o.OutSizeY := by
        cases x with
        | prompt s =>
            rw [promptSectionStep_prompt]
            split <;> exact ⟨rfl, rfl⟩
        | _ => exact ⟨rfl, rfl⟩
      rw [List.foldl_cons, (ih _).1, (ih _).2]
      exact hx

theorem buildCombinedPrompt_size (tracks : List MovieSceneTrack) (t : FFrameNumber) :
    ∀ o : FStableDiffusionGenerationOptions,
      (buildCombinedPrompt tracks t o).OutSizeX = o.OutSizeX ∧
      (buildCombinedPrompt tracks t o).OutSizeY = o.OutSizeY := by
  induction tracks with
  | nil => intro o; exact ⟨rfl, rfl⟩
  | cons x xs ih =>
      intro o
      have h1 := ih (x.Sections.foldl (promptSectionStep t) o)
      have h2 := foldl_promptSectionStep_size t x.Sections o
      unfold buildCombinedPrompt at h1 ⊢
      rw [List.foldl_cons, h1.1, h1.2]
      exact h2

theorem frameInput_outSize (P : RenderPass) (D : HeaderDefaults) (Size : Int × Int)
    (t : FFrameNumber) :
    ((frameInput P D Size t).Options.OutSizeX, (frameInput P D Size t).Options.OutSizeY) =
      Size := by
  unfold frameInput
  simp only []
  rw [(buildCombinedPrompt_size _ _ _).1, (buildCombinedPrompt_size _ _ _).2]

theorem buildImageDataBuffer8bit_size {σ : Type} (E : Engine σ) (Input : FStableDiffusionInput)
    (OutTexture : Option UTexture2D) (Last : FStableDiffusionImageResult) :
    (Last.OutTexture = none →
      buildImageDataBuffer8bit E Input OutTexture Last =
        { Size := (Input.Options.OutSizeX, Input.Options.OutSizeY)
          NumPixels := Input.Options.OutSizeX * Input.Options.OutSizeY }) ∧
    (Last.OutTexture ≠ none →
      (buildImageDataBuffer8bit E Input OutTexture Last).Size =
        (Last.OutWidth, Last.OutHeight)) := by
  unfold buildImageDataBuffer8bit
  constructor
  · intro h
    simp [h]
  · intro h
    obtain ⟨tex, htex⟩ := Option.ne_none_iff_exists'.mp h
    simp [htex]

/-! ## Stage loop and quantisation: claims -/

/-- C2, as stated, fails: with the stage list [pixel stage, latent stage] and a
bridge that completes the pixel stage without a latent, the layer context built
for the latent stage is declared `Latent`, the last stage result is completed,
and `latentData` is empty. -/
theorem latent_data_empty_though_completed :
    PipelineEvent.LayersBuilt 1 (exampleResult latentOnly EImageType.Pixels)
        [latentLayerWith []] ∈
      (RenderSample (testEngine latentOnly 1)
        (stagesPass [some (plainStage 1 EImageType.Pixels), some latentStage])
        exampleDefaults 0 EModelStatus.Unloaded (8, 8) 5).1.Events ∧
    (latentLayerWith []).OutputType = EImageType.Latent ∧
    (exampleResult latentOnly EImageType.Pixels).Completed = true ∧
    (latentLayerWith []).LatentData = [] := by
  decide

/-- C2, amended: every layer context built in the stage loop holds the
`OutLatent` of the last stage result when it is declared `Latent` and that
result is completed, and is empty otherwise (so it is non-empty only if the
layer is `Latent` and the last stage result is completed, and it is empty too
when that result carries no latent).  The last stage result that stage `i`
finds is the default result when no stage before `i` generated, and otherwise
the result of the latest stage before `i` that generated: no generation of the
trace has a stage index between that stage and `i`, and the trace holds no
other result for that stage.  At stage index 0 `latentData` is always empty. -/
theorem layer_latent_data_from_last_result {σ : Type} (E : Engine σ) (P : RenderPass)
    (Uninit : Scalar) (Input : FStableDiffusionInput) (OutTexture : Option UTexture2D)
    (t : FFrameNumber) (D : HeaderDefaults) (w : σ)
    (stages : List (Option UImagePipelineStageAsset))
    (i : Nat) (last : FStableDiffusionImageResult) (layers : List FLayerProcessorContext)
    (hev : PipelineEvent.LayersBuilt i last layers ∈
      (runStages E P Uninit Input OutTexture t 0 stages
        { World := w, LastStageResult := D.ImageResult, Events := [], Crashed := false }).Events)
    (ctx : FLayerProcessorContext) (hctx : ctx ∈ layers) :
    ctx.LatentData =
      (if ctx.OutputType = EImageType.Latent ∧ last.Completed = true then last.OutLatent
        else []) ∧
    (ctx.LatentData ≠ [] → ctx.OutputType = EImageType.Latent ∧ last.Completed = true) ∧
    ((last = D.ImageResult ∧ ∀ k inp r, PipelineEvent.Generate k inp r ∈
        (runStages E P Uninit Input OutTexture t 0 stages
          { World := w, LastStageResult := D.ImageResult, Events := [],
            Crashed := false }).Events → i ≤ k) ∨
      ∃ k inp, k < i ∧ PipelineEvent.Generate k inp last ∈
          (runStages E P Uninit Input OutTexture t 0 stages
            { World := w, LastStageResult := D.ImageResult, Events := [],
              Crashed := false }).Events ∧
        ∀ k2 inp2 r2, PipelineEvent.Generate k2 inp2 r2 ∈
            (runStages E P Uninit Input OutTexture t 0 stages
              { World := w, LastStageResult := D.ImageResult, Events := [],
                Crashed := false }).Events → k2 < i →
          k2 ≤ k ∧ (k2 = k → r2 = last)) ∧
    (i = 0 → ctx.LatentData = []) := by
  have hinv := runStages_inv E P Uninit Input OutTexture t D.ImageResult stages 0
    { World := w, LastStageResult := D.ImageResult, Events := [], Crashed := false }
    ⟨fun _ => rfl, by simp, Or.inl ⟨rfl, by simp⟩, by simp⟩
  obtain ⟨-, hi0, hlast, hall⟩ := hinv.2.2.2 i last layers hev
  have hdata := hall ctx hctx
  refine ⟨hdata, ?_, hlast, ?_⟩
  · intro hne
    by_contra hcon
    rw [if_neg hcon] at hdata
    exact hne hdata
  · intro h0
    rw [hdata, hi0 h0]
    simp [HeaderDefaults.ImageResult]

/-- Witness of C2 (amended): the latent stage after a pixel stage whose result
carries a latent. -/
theorem layer_latent_data_from_last_result_witness :
    (latentLayerWith [1, 2, 3]).LatentData =
      (if (latentLayerWith [1, 2, 3]).OutputType = EImageType.Latent ∧
          (exampleResult latentAlways EImageType.Pixels).Completed = true then
        (exampleResult latentAlways EImageType.Pixels).OutLatent
      else []) :=
  (layer_latent_data_from_last_result (testEngine latentAlways 1)
    (stagesPass [some (plainStage 1 EImageType.Pixels), some latentStage]) 0 exampleInput
    (some ⟨8, 8⟩) 5 exampleDefaults EModelStatus.Unloaded
    [some (plainStage 1 EImageType.Pixels), some latentStage]
    1 (exampleResult latentAlways EImageType.Pixels) [latentLayerWith [1, 2, 3]]
    (by decide) (latentLayerWith [1, 2, 3]) (by decide)).1

/-- C3: in a stage list `pre ++ stage :: rest`, let stage `i = pre.length` be
reached and let its model status after `InitModel` be other than `Loaded`.
Then stage `i` makes no generate call (the one event it adds is its `InitModel`)
and leaves `LastStageResult` as the stages before it left it; the loop is not
ended: it goes on with stage `i + 1` from that state.  The `InitModel` of stage
`i + 1` is called, and every stage input that stage `i + 1` passes to the bridge
carries the prompts, strength, iterations, seed, sizes and flags of the
frame-level `Input`, with the output type of stage `i + 1` and its guidance
scale and LoRA weight where stage `i + 1` overrides them.  When the model of
stage `i + 1` loads, its layers are copied and their options applied, and the
model is still loaded after the captures, stage `i + 1` runs to the end: it
builds its layer contexts from the result the stages before `i` left, calls the
bridge with that input and the captured layers, and its result becomes
`LastStageResult`. -/
theorem failed_model_load_skips_stage {σ : Type} (E : Engine σ) (P : RenderPass)
    (Uninit : Scalar) (Input : FStableDiffusionInput) (OutTexture : Option UTexture2D)
    (t : FFrameNumber) (pre rest : List (Option UImagePipelineStageAsset))
    (stage : UImagePipelineStageAsset) (m : Nat) (s0 : StageLoopState σ)
    (hcr : (runStages E P Uninit Input OutTexture t 0 pre s0).Crashed = false)
    (hm : stage.Model = some m)
    (hst : E.GetModelStatus (E.InitModel (runStages E P Uninit Input OutTexture t 0 pre s0).World
      m stage P.AllowNSFW P.PaddingMode) ≠ EModelStatus.Loaded) :
    (runStages E P Uninit Input OutTexture t 0 (pre ++ [some stage]) s0).Events =
      (runStages E P Uninit Input OutTexture t 0 pre s0).Events ++
        [PipelineEvent.InitModel pre.length
          (E.GetModelStatus (E.InitModel (runStages E P Uninit Input OutTexture t 0 pre s0).World
            m stage P.AllowNSFW P.PaddingMode))] ∧
    (runStages E P Uninit Input OutTexture t 0 (pre ++ [some stage]) s0).LastStageResult =
      (runStages E P Uninit Input OutTexture t 0 pre s0).LastStageResult ∧
    (runStages E P Uninit Input OutTexture t 0 (pre ++ [some stage]) s0).Crashed = false ∧
    runStages E P Uninit Input OutTexture t 0 (pre ++ some stage :: rest) s0 =
      runStages E P Uninit Input OutTexture t (pre.length + 1) rest
        (runStages E P Uninit Input OutTexture t 0 (pre ++ [some stage]) s0) ∧
    (∀ next : UImagePipelineStageAsset,
      ∃ new,
        (runStages E P Uninit Input OutTexture t 0 (pre ++ [some stage, some next]) s0).Events =
          (runStages E P Uninit Input OutTexture t 0 (pre ++ [some stage]) s0).Events ++ new ∧
        (∀ mn, next.Model = some mn → ∃ status tail,
          new = PipelineEvent.InitModel (pre.length + 1) status :: tail) ∧
        ∀ inp r, PipelineEvent.Generate (pre.length + 1) inp r ∈ new →
          inp.PreviewIterationRate = Input.PreviewIterationRate ∧
          inp.DebugPythonImages = Input.DebugPythonImages ∧
          inp.OutputType = next.OutputType ∧
          inp.Options.Prompts = Input.Options.Prompts ∧
          inp.Options.Strength = Input.Options.Strength ∧
          inp.Options.Iterations = Input.Options.Iterations ∧
          inp.Options.Seed = Input.Options.Seed ∧
          inp.Options =
            { Input.Options with
              GuidanceScale :=
                if next.OverrideInputOptions.OverrideGuidanceScale = true then
                  next.OverrideInputOptions.GuidanceScale
                else Input.Options.GuidanceScale
              LoraWeight :=
                if next.OverrideInputOptions.OverrideLoraWeight = true then
                  next.OverrideInputOptions.LoraWeight
                else Input.Options.LoraWeight }) ∧
    ∀ (next : UImagePipelineStageAsset) (mn : Nat) (L Layers : List FLayerProcessorContext),
      next.Model = some mn →
      E.GetModelStatus (E.InitModel
        (runStages E P Uninit Input OutTexture t 0 (pre ++ [some stage]) s0).World
        mn next P.AllowNSFW P.PaddingMode) = EModelStatus.Loaded →
      buildStageLayers (runStages E P Uninit Input OutTexture t 0 pre s0).LastStageResult
        next.Layers = some L →
      ApplyLayerOptions P.LayerProcessorTracks Uninit L (pre.length + 1) t = some Layers →
      E.GetModelStatus (captureLayers E (Input.Options.OutSizeX, Input.Options.OutSizeY)
        (E.InitModel (runStages E P Uninit Input OutTexture t 0 (pre ++ [some stage]) s0).World
          mn next P.AllowNSFW P.PaddingMode) Layers).1 = EModelStatus.Loaded →
      ∃ inp : FStableDiffusionInput,
        (runStages E P Uninit Input OutTexture t 0 (pre ++ [some stage, some next]) s0).Events =
          (runStages E P Uninit Input OutTexture t 0 (pre ++ [some stage]) s0).Events ++
            [PipelineEvent.InitModel (pre.length + 1) EModelStatus.Loaded,
              PipelineEvent.LayersBuilt (pre.length + 1)
                (runStages E P Uninit Input OutTexture t 0 pre s0).LastStageResult L,
              PipelineEvent.Generate (pre.length + 1) inp
                (runStages E P Uninit Input OutTexture t 0 (pre ++ [some stage, some next])
                  s0).LastStageResult] ∧
        (runStages E P Uninit Input OutTexture t 0 (pre ++ [some stage, some next])
            s0).LastStageResult =
          (E.GenerateImageFromStartImage
            (captureLayers E (Input.Options.OutSizeX, Input.Options.OutSizeY)
              (E.InitModel
                (runStages E P Uninit Input OutTexture t 0 (pre ++ [some stage]) s0).World
                mn next P.AllowNSFW P.PaddingMode) Layers).1 inp OutTexture).2 ∧
        inp.InputLayers =
          (captureLayers E (Input.Options.OutSizeX, Input.Options.OutSizeY)
            (E.InitModel
              (runStages E P Uninit Input OutTexture t 0 (pre ++ [some stage]) s0).World
              mn next P.AllowNSFW P.PaddingMode) Layers).2.1 ∧
        inp.ProcessedLayers = Input.ProcessedLayers ++
          (captureLayers E (Input.Options.OutSizeX, Input.Options.OutSizeY)
            (E.InitModel
              (runStages E P Uninit Input OutTexture t 0 (pre ++ [some stage]) s0).World
              mn next P.AllowNSFW P.PaddingMode) Layers).2.2 ∧
        inp.PreviewIterationRate = Input.PreviewIterationRate ∧
        inp.DebugPythonImages = Input.DebugPythonImages ∧
        inp.OutputType = next.OutputType ∧
        inp.Options =
          { Input.Options with
            GuidanceScale :=
              if next.OverrideInputOptions.OverrideGuidanceScale = true then
                next.OverrideInputOptions.GuidanceScale
              else Input.Options.GuidanceScale
            LoraWeight :=
              if next.OverrideInputOptions.OverrideLoraWeight = true then
                next.OverrideInputOptions.LoraWeight
              else Input.Options.LoraWeight } := by
  have hone : ∀ x, runStages E P Uninit Input OutTexture t 0 (pre ++ [x]) s0 =
      stageStep E P Uninit Input OutTexture t pre.length x
        (runStages E P Uninit Input OutTexture t 0 pre s0) := by
    intro x
    rw [runStages_append, Nat.zero_add]
    rfl
  have htwo : ∀ x y, runStages E P Uninit Input OutTexture t 0 (pre ++ [x, y]) s0 =
      stageStep E P Uninit Input OutTexture t (pre.length + 1) y
        (runStages E P Uninit Input OutTexture t 0 (pre ++ [x]) s0) := by
    intro x y
    rw [hone, runStages_append, Nat.zero_add]
    rfl
  have hstep := stageStep_load_failed E P Uninit Input OutTexture t pre.length stage m
    (runStages E P Uninit Input OutTexture t 0 pre s0) hcr hm hst
  have hcrI : (runStages E P Uninit Input OutTexture t 0 (pre ++ [some stage]) s0).Crashed =
      false := by rw [hone, hstep]; exact hcr
  have hlastI : (runStages E P Uninit Input OutTexture t 0 (pre ++ [some stage])
      s0).LastStageResult =
      (runStages E P Uninit Input OutTexture t 0 pre s0).LastStageResult := by rw [hone, hstep]
  refine ⟨by rw [hone, hstep], hlastI, hcrI, ?_, ?_, ?_⟩
  · rw [hone, runStages_append, Nat.zero_add]
    rfl
  · intro next
    rw [htwo]
    obtain ⟨new, hnew, hall, -⟩ := stageStep_events E P Uninit Input OutTexture t
      (pre.length + 1) (some next)
      (runStages E P Uninit Input OutTexture t 0 (pre ++ [some stage]) s0)
    refine ⟨new, hnew, ?_, ?_⟩
    · intro mn hmn
      obtain ⟨tail, htail⟩ := stageStep_init_first E P Uninit Input OutTexture t
        (pre.length + 1) next mn
        (runStages E P Uninit Input OutTexture t 0 (pre ++ [some stage]) s0) hcrI hmn
      rw [hnew] at htail
      exact ⟨_, tail, List.append_cancel_left htail⟩
    · intro inp r hmem
      rcases hall _ hmem with ⟨status, hs⟩ | ⟨s2, L, -, -, hs⟩ | ⟨s2, ins, procs, r2, hs2, hs, -⟩
      · cases hs
      · cases hs
      · cases hs2
        cases hs
        exact ⟨rfl, rfl, rfl, rfl, rfl, rfl, rfl, rfl⟩
  · intro next mn L Layers hmn hload hL hA hload2
    rw [← hlastI] at hL
    have hgen := stageStep_generates E P Uninit Input OutTexture t (pre.length + 1) next mn
      (runStages E P Uninit Input OutTexture t 0 (pre ++ [some stage]) s0) L Layers hcrI hmn
      hload hL hA hload2
    rw [htwo, hgen, ← hlastI]
    exact ⟨_, rfl, rfl, rfl, rfl, rfl, rfl, rfl, rfl⟩

/-- Witness of C3: the stage list [stage that fails to load, stage that loads].
The failed stage keeps the default result, and the loop ends with the events of
both stages, the second generating from the frame-level input. -/
theorem failed_model_load_skips_stage_witness :
    (runStages (testEngine latentOnly 1) (stagesPass []) 0 exampleInput (some ⟨8, 8⟩) 5 0
        ([] ++ [some (plainStage 0 EImageType.Pixels)]) exampleStart).LastStageResult =
      (runStages (testEngine latentOnly 1) (stagesPass []) 0 exampleInput (some ⟨8, 8⟩) 5 0
        [] exampleStart).LastStageResult ∧
    (runStages (testEngine latentOnly 1) (stagesPass []) 0 exampleInput (some ⟨8, 8⟩) 5 0
        [some (plainStage 0 EImageType.Pixels), some (plainStage 1 EImageType.Pixels)]
        exampleStart).Events =
      [PipelineEvent.InitModel 0 EModelStatus.Failed,
        PipelineEvent.InitModel 1 EModelStatus.Loaded,
        PipelineEvent.LayersBuilt 1 exampleDefaults.ImageResult [],
        PipelineEvent.Generate 1
          (stageInputAtGenerate exampleInput (plainStage 1 EImageType.Pixels) [] [])
          (exampleResult latentOnly EImageType.Pixels)] :=
  ⟨(failed_model_load_skips_stage (testEngine latentOnly 1) (stagesPass []) 0
      exampleInput (some ⟨8, 8⟩) 5 [] [some (plainStage 1 EImageType.Pixels)]
      (plainStage 0 EImageType.Pixels) 0 exampleStart rfl rfl (by decide)).2.1,
    by decide⟩

/-- C8: in the stage list [StageA, StageB], when StageA's generation completes
with result `rA`, the layer contexts built for StageB take `rA` as last stage
result; each copies the declared output type of its layer and holds
`rA.OutLatent` exactly when that declared type is `Latent`.  Nothing is assumed
about StageA's own output type.  When StageB's model loads and its layers can
be copied, these contexts are built. -/
theorem latent_inheritance_keys_off_consumer {σ : Type} (E : Engine σ) (P : RenderPass)
    (Uninit : Scalar) (Input : FStableDiffusionInput) (OutTexture : Option UTexture2D)
    (t : FFrameNumber) (init : FStableDiffusionImageResult) (w : σ)
    (A B : UImagePipelineStageAsset) (inpA : FStableDiffusionInput)
    (rA : FStableDiffusionImageResult)
    (hgen : PipelineEvent.Generate 0 inpA rA ∈
      (runStages E P Uninit Input OutTexture t 0 [some A]
        { World := w, LastStageResult := init, Events := [], Crashed := false }).Events)
    (hc : rA.Completed = true) :
    (∀ last layers, PipelineEvent.LayersBuilt 1 last layers ∈
        (runStages E P Uninit Input OutTexture t 0 [some A, some B]
          { World := w, LastStageResult := init, Events := [], Crashed := false }).Events →
      last = rA ∧
      List.Forall₂ (fun d ctx => ctx.OutputType = d.OutputType ∧
        ctx.LatentData = if d.OutputType = EImageType.Latent then rA.OutLatent else [])
        B.Layers layers) ∧
    (∀ mB, B.Model = some mB →
      E.GetModelStatus (E.InitModel
        (runStages E P Uninit Input OutTexture t 0 [some A]
          { World := w, LastStageResult := init, Events := [], Crashed := false }).World
        mB B P.AllowNSFW P.PaddingMode) = EModelStatus.Loaded →
      (∀ d ∈ B.Layers, allocateOptions d ≠ none) →
      ∃ layers, PipelineEvent.LayersBuilt 1 rA layers ∈
        (runStages E P Uninit Input OutTexture t 0 [some A, some B]
          { World := w, LastStageResult := init, Events := [], Crashed := false }).Events) := by
  simp only [runStages] at hgen ⊢
  generalize hs0 : ({ World := w, LastStageResult := init, Events := [], Crashed := false } :
    StageLoopState σ) = s0 at hgen ⊢
  have hs0e : s0.Events = [] := by rw [← hs0]
  obtain ⟨newA, hA, hallA, -⟩ := stageStep_events E P Uninit Input OutTexture t 0 (some A) s0
  rw [hs0e, List.nil_append] at hA
  generalize hsA : stageStep E P Uninit Input OutTexture t 0 (some A) s0 = stA at *
  have hAlast : stA.LastStageResult = rA ∧ stA.Crashed = false := by
    rw [hA] at hgen
    rcases hallA _ hgen with ⟨status, hs⟩ | ⟨s2, L, -, -, hs⟩ | ⟨s2, ins, procs, r2, -, hs, h1, h2⟩
    · cases hs
    · cases hs
    · cases hs
      exact ⟨h1, h2⟩
  obtain ⟨newB, hB, hallB, -⟩ := stageStep_events E P Uninit Input OutTexture t 1 (some B) stA
  constructor
  · intro last layers hmem
    rw [hB, hA] at hmem
    rcases List.mem_append.mp hmem with hold | hnw
    · rcases hallA _ hold with ⟨status, hs⟩ | ⟨s2, L, -, -, hs⟩ | ⟨s2, ins, procs, r2, -, hs, -⟩
      · cases hs
      · cases hs
      · cases hs
    · rcases hallB _ hnw with ⟨status, hs⟩ | ⟨s2, L, hs2, hL, hs⟩ | ⟨s2, ins, procs, r2, -, hs, -⟩
      · cases hs
      · cases hs2
        cases hs
        refine ⟨hAlast.1, ?_⟩
        rw [hAlast.1] at hL
        refine (buildStageLayers_spec rA _ _ hL).imp ?_
        intro d ctx hd
        have hf := buildLayerContext_fields rA d ctx hd
        refine ⟨hf.1, ?_⟩
        rw [hf.2]
        simp [hc]
      · cases hs
  · intro mB hmB hst hal
    obtain ⟨L, hL⟩ := buildStageLayers_total stA.LastStageResult B.Layers hal
    have := stageStep_layers_built E P Uninit Input OutTexture t 1 B mB stA L hAlast.2 hmB hst hL
    rw [hAlast.1] at this
    exact ⟨L, this⟩

/-- Witness of C8: StageA of output type `Pixels` whose result carries a latent,
StageB with one layer declared `Latent`. -/
theorem latent_inheritance_keys_off_consumer_witness :
    List.Forall₂ (fun d ctx => ctx.OutputType = d.OutputType ∧
      ctx.LatentData =
        if d.OutputType = EImageType.Latent then
          (exampleResult latentAlways EImageType.Pixels).OutLatent
        else [])
      latentStage.Layers [latentLayerWith [1, 2, 3]] :=
  ((latent_inheritance_keys_off_consumer (testEngine latentAlways 1) (stagesPass []) 0
    exampleInput (some ⟨8, 8⟩) 5 exampleDefaults.ImageResult EModelStatus.Unloaded
    (plainStage 1 EImageType.Pixels) latentStage
    (stageInputAtGenerate exampleInput (plainStage 1 EImageType.Pixels) [] [])
    (exampleResult latentAlways EImageType.Pixels) (by decide) rfl).1
    (exampleResult latentAlways EImageType.Pixels) [latentLayerWith [1, 2, 3]] (by decide)).2

/-- C4, as stated, fails: for a render target of size 8 by 8 and a bridge whose
result holds a valid texture and reports 16 by 16, the frame-level output size
is 8 by 8 and the 8-bit buffer is labelled 16 by 16. -/
theorem quantization_buffer_follows_result_size :
    (frameInput (stagesPass [some (plainStage 1 EImageType.Pixels)]) exampleDefaults (8, 8)
        5).Options.OutSizeX = 8 ∧
    (frameInput (stagesPass [some (plainStage 1 EImageType.Pixels)]) exampleDefaults (8, 8)
        5).Options.OutSizeY = 8 ∧
    (RenderSample (testEngine latentOnly 2) (stagesPass [some (plainStage 1 EImageType.Pixels)])
        exampleDefaults 0 EModelStatus.Unloaded (8, 8) 5).2 =
      some { Size := (16, 16), NumPixels := 64 } := by
  decide

/-- C4, amended: a frame whose stage loop does not crash yields an 8-bit buffer.
On the blank fallback path (the final stage result has no valid texture) the
buffer is labelled with the output size of the frame-level input, which is the
render target size, and holds `OutSizeX * OutSizeY` pixels.  On the other path
it is labelled with the `OutWidth` and `OutHeight` of the final stage result. -/
theorem quantization_buffer_dimensions {σ : Type} (E : Engine σ) (P : RenderPass)
    (D : HeaderDefaults) (Uninit : Scalar) (w : σ) (Size : Int × Int) (t : FFrameNumber) :
    ((RenderSample E P D Uninit w Size t).1.Crashed = false →
      ∃ buf, (RenderSample E P D Uninit w Size t).2 = some buf) ∧
    ∀ buf, (RenderSample E P D Uninit w Size t).2 = some buf →
      ((RenderSample E P D Uninit w Size t).1.LastStageResult.OutTexture = none →
        buf.Size = ((frameInput P D Size t).Options.OutSizeX,
          (frameInput P D Size t).Options.OutSizeY) ∧
        buf.Size = Size ∧ buf.NumPixels = Size.1 * Size.2) ∧
      ((RenderSample E P D Uninit w Size t).1.LastStageResult.OutTexture ≠ none →
        buf.Size = ((RenderSample E P D Uninit w Size t).1.LastStageResult.OutWidth,
          (RenderSample E P D Uninit w Size t).1.LastStageResult.OutHeight)) := by
  have hsize := frameInput_outSize P D Size t
  have hx : (frameInput P D Size t).Options.OutSizeX = Size.1 := congrArg Prod.fst hsize
  have hy : (frameInput P D Size t).Options.OutSizeY = Size.2 := congrArg Prod.snd hsize
  unfold RenderSample
  simp only []
  generalize runStages E P Uninit (frameInput P D Size t)
    (UTexture2D.CreateTransient (frameInput P D Size t).Options.OutSizeX
      (frameInput P D Size t).Options.OutSizeY) t 0 (frameStages P D Size t)
    { World := w, LastStageResult := D.ImageResult, Events := [], Crashed := false } = st
  constructor
  · intro hcr
    rw [if_neg (by simp [hcr])]
    exact ⟨_, rfl⟩
  · intro buf hbuf
    split at hbuf
    · cases hbuf
    · cases hbuf
      have hb := buildImageDataBuffer8bit_size E (frameInput P D Size t)
        (UTexture2D.CreateTransient (frameInput P D Size t).Options.OutSizeX
          (frameInput P D Size t).Options.OutSizeY) st.LastStageResult
      constructor
      · intro hnone
        rw [hb.1 hnone]
        exact ⟨rfl, hsize, by rw [hx, hy]⟩
      · exact hb.2

/-- Witness of C4 (amended): a frame without stages takes the fallback path and
yields a buffer of the render target size. -/
theorem quantization_buffer_dimensions_witness :
    (({ Size := (8, 8), NumPixels := 64 } : TImagePixelData).Size =
        ((frameInput (stagesPass []) exampleDefaults (8, 8) 5).Options.OutSizeX,
          (frameInput (stagesPass []) exampleDefaults (8, 8) 5).Options.OutSizeY)) ∧
    ({ Size := (8, 8), NumPixels := 64 } : TImagePixelData).Size = (8, 8) ∧
    ({ Size := (8, 8), NumPixels := 64 } : TImagePixelData).NumPixels = (8, 8).1 * (8, 8).2 :=
  ((quantization_buffer_dimensions (testEngine latentOnly 2) (stagesPass []) exampleDefaults 0
    EModelStatus.Unloaded (8, 8) 5).2 { Size := (8, 8), NumPixels := 64 } (by decide)).1
    (by decide)

/-! ## Export pass: lemmas -/

theorem exportFile_events {σ : Type} (E : Engine σ) (S : ExportSettings) (st : ExportState σ)
    (file : String) :
    ∃ new, (exportFile E S st file).Events = st.Events ++ new ∧
      new.count ExportEvent.StartUpsample = 0 ∧ new.count ExportEvent.StopUpsample = 0 ∧
      (new.filter ExportEvent.isUpsampleCall).length =
        if (E.ImportFileAsTexture2D file).isSome = true then 1 else 0 := by
  unfold exportFile
  split
  · rename_i h
    exact ⟨[], by simp [h]⟩
  · rename_i Image h
    simp only []
    split
    · exact ⟨_, by simp; rfl, by simp [h, ExportEvent.isUpsampleCall, List.count_cons]⟩
    · exact ⟨_, rfl, by simp [h, ExportEvent.isUpsampleCall, List.count_cons]⟩

theorem exportFiles_events {σ : Type} (E : Engine σ) (S : ExportSettings) :
    ∀ (files : List String) (st : ExportState σ),
      ∃ new, (files.foldl (exportFile E S) st).Events = st.Events ++ new ∧
        new.count ExportEvent.StartUpsample = 0 ∧ new.count ExportEvent.StopUpsample = 0 ∧
        (new.filter ExportEvent.isUpsampleCall).length =
          (files.filter fun f => (E.ImportFileAsTexture2D f).isSome).length := by
  intro files
  induction files with
  | nil => intro st; exact ⟨[], by simp⟩
  | cons f fs ih =>
      intro st
      obtain ⟨n1, h1, hs1, hp1, hu1⟩ := exportFile_events E S st f
      obtain ⟨n2, h2, hs2, hp2, hu2⟩ := ih (exportFile E S st f)
      refine ⟨n1 ++ n2, ?_, ?_, ?_, ?_⟩
      · rw [List.foldl_cons, h2, h1, List.append_assoc]
      · rw [List.count_append, hs1, hs2]
      · rw [List.count_append, hp1, hp2]
      · rw [List.filter_append, List.length_append, hu1, hu2, List.filter_cons]
        split <;> simp [Nat.add_comm]

theorem exportRenderPass_events {σ : Type} (E : Engine σ) (S : ExportSettings)
    (st : ExportState σ) (files : List String) :
    ∃ mid, (exportRenderPass E S st files).Events =
        st.Events ++ ExportEvent.StartUpsample :: (mid ++ [ExportEvent.StopUpsample]) ∧
      mid.count ExportEvent.StartUpsample = 0 ∧ mid.count ExportEvent.StopUpsample = 0 ∧
      (mid.filter ExportEvent.isUpsampleCall).length =
        (files.filter fun f => (E.ImportFileAsTexture2D f).isSome).length := by
  obtain ⟨mid, h, hs, hp, hu⟩ := exportFiles_events E S files
    { World := E.StartUpsample st.World, Events := st.Events ++ [ExportEvent.StartUpsample] }
  refine ⟨mid, ?_, hs, hp, hu⟩
  unfold exportRenderPass
  simp only []
  rw [h]
  simp

theorem exportPasses_events {σ : Type} (E : Engine σ) (S : ExportSettings) :
    ∀ (passes : List (Nat × List String)) (st : ExportState σ),
      ∃ new, (passes.foldl (fun acc renderpass => exportRenderPass E S acc renderpass.2)
          st).Events = st.Events ++ new ∧
        new.count ExportEvent.StartUpsample = passes.length ∧
        new.count ExportEvent.StopUpsample = passes.length := by
  intro passes
  induction passes with
  | nil => intro st; exact ⟨[], by simp⟩
  | cons p ps ih =>
      intro st
      obtain ⟨mid, h1, hs1, hp1, -⟩ := exportRenderPass_events E S st p.2
      obtain ⟨n2, h2, hs2, hp2⟩ := ih (exportRenderPass E S st p.2)
      refine ⟨ExportEvent.StartUpsample :: (mid ++ [ExportEvent.StopUpsample]) ++ n2, ?_, ?_, ?_⟩
      · rw [List.foldl_cons, h2, h1, List.append_assoc]
      · simp [List.count_append, List.count_cons, hs1, hs2]
      · simp [List.count_append, List.count_cons, hp1, hp2]

theorem exportShots_events {σ : Type} (E : Engine σ) (S : ExportSettings) :
    ∀ (shots : List ShotOutputData) (st : ExportState σ),
      ∃ new, (shots.foldl (exportShot E S) st).Events = st.Events ++ new ∧
        new.count ExportEvent.StartUpsample =
          (shots.map fun shot => shot.RenderPassData.length).sum ∧
        new.count ExportEvent.StopUpsample =
          (shots.map fun shot => shot.RenderPassData.length).sum := by
  intro shots
  induction shots with
  | nil => intro st; exact ⟨[], by simp⟩
  | cons sh shs ih =>
      intro st
      obtain ⟨n1, h1, hs1, hp1⟩ := exportPasses_events E S sh.RenderPassData st
      obtain ⟨n2, h2, hs2, hp2⟩ := ih (exportShot E S st sh)
      refine ⟨n1 ++ n2, ?_, ?_, ?_⟩
      · rw [List.foldl_cons, h2]
        unfold exportShot
        rw [h1, List.append_assoc]
      · rw [List.count_append, hs1, hs2, List.map_cons, List.sum_cons]
      · rw [List.count_append, hp1, hp2, List.map_cons, List.sum_cons]

/-! ## Export pass: claims -/

/-- C5, as stated, fails: for a shot with two render passes of one file each,
`StartUpsample` and `StopUpsample` are each called twice for that shot. -/
theorem upsample_session_opened_twice_for_one_shot :
    (exportShot (testEngine latentOnly 1) exampleSettings
        { World := EModelStatus.Unloaded, Events := [] }
        ⟨[(0, ["a.exr"]), (1, ["b.exr"])]⟩).Events.count ExportEvent.StartUpsample = 2 ∧
    (exportShot (testEngine latentOnly 1) exampleSettings
        { World := EModelStatus.Unloaded, Events := [] }
        ⟨[(0, ["a.exr"]), (1, ["b.exr"])]⟩).Events.count ExportEvent.StopUpsample = 2 := by
  decide

/-- C5, amended: the upscale session is opened and closed once per render pass of
a shot.  A render pass yields `StartUpsample`, then the events of its files
(among them one `UpsampleImage` call per file that reloads, and no start or
stop), then `StopUpsample`; a shot yields as many `StartUpsample` calls, and as
many `StopUpsample` calls, as it has render passes, whatever the number of
files; an export pass with upscaling enabled releases the model and then
yields, over all shots, one start and one stop per render pass. -/
theorem upsample_session_per_render_pass {σ : Type} (E : Engine σ) (S : ExportSettings)
    (st : ExportState σ) :
    (∀ files : List String, ∃ mid,
      (exportRenderPass E S st files).Events =
        st.Events ++ ExportEvent.StartUpsample :: (mid ++ [ExportEvent.StopUpsample]) ∧
      mid.count ExportEvent.StartUpsample = 0 ∧ mid.count ExportEvent.StopUpsample = 0 ∧
      (mid.filter ExportEvent.isUpsampleCall).length =
        (files.filter fun f => (E.ImportFileAsTexture2D f).isSome).length) ∧
    (∀ shot : ShotOutputData, ∃ new,
      (exportShot E S st shot).Events = st.Events ++ new ∧
      new.count ExportEvent.StartUpsample = shot.RenderPassData.length ∧
      new.count ExportEvent.StopUpsample = shot.RenderPassData.length) ∧
    (∀ (w : σ) (ShotData : List ShotOutputData), S.bUpscale = true → ∃ new,
      (BeginExportImpl E S w ShotData).Events = ExportEvent.ReleaseModel :: new ∧
      new.count ExportEvent.StartUpsample =
        (ShotData.map fun shot => shot.RenderPassData.length).sum ∧
      new.count ExportEvent.StopUpsample =
        (ShotData.map fun shot => shot.RenderPassData.length).sum) := by
  refine ⟨fun files => exportRenderPass_events E S st files,
    fun shot => exportPasses_events E S shot.RenderPassData st, ?_⟩
  intro w ShotData hup
  obtain ⟨new, h, hs, hp⟩ := exportShots_events E S ShotData
    { World := E.ReleaseModel w, Events := [ExportEvent.ReleaseModel] }
  refine ⟨new, ?_, hs, hp⟩
  unfold BeginExportImpl
  rw [if_neg (by simp [hup]), h]
  rfl

/-- Witness of C5 (amended): an export pass over one shot with one render pass
of three files opens and closes the session once. -/
theorem upsample_session_per_render_pass_witness :
    ∃ new,
      (BeginExportImpl (testEngine latentOnly 1) exampleSettings EModelStatus.Loaded
        [⟨[(0, ["a.exr", "b.exr", "c.exr"])]⟩]).Events = ExportEvent.ReleaseModel :: new ∧
      new.count ExportEvent.StartUpsample =
        ([(⟨[(0, ["a.exr", "b.exr", "c.exr"])]⟩ : ShotOutputData)].map
          fun shot => shot.RenderPassData.length).sum ∧
      new.count ExportEvent.StopUpsample =
        ([(⟨[(0, ["a.exr", "b.exr", "c.exr"])]⟩ : ShotOutputData)].map
          fun shot => shot.RenderPassData.length).sum :=
  (upsample_session_per_render_pass (testEngine latentOnly 1) exampleSettings
    { World := EModelStatus.Loaded, Events := [] }).2.2 EModelStatus.Loaded
    [⟨[(0, ["a.exr", "b.exr", "c.exr"])]⟩] rfl

/-- C6: for an exported file that reloads as an image of positive size `w` by
`h`, with a `ColorBufferToTexture` that makes a texture of the size passed to it
and a bridge whose `UpsampleImage` reports four times the input size, the
destination texture of the upsample call is `4 * w` by `4 * h`, and the pixel
data enqueued for writing, if any, is labelled `4 * w` by `4 * h`. -/
theorem upsample_dimensions_four_times {σ : Type} (E : Engine σ) (S : ExportSettings)
    (st : ExportState σ) (file : String) (Image : UTexture2D)
    (himp : E.ImportFileAsTexture2D file = some Image)
    (hw : 0 < Image.SizeX) (hh : 0 < Image.SizeY)
    (hbuf : ∀ n size, (E.ColorBufferToTexture n size).SizeX = size.1 ∧
      (E.ColorBufferToTexture n size).SizeY = size.2)
    (hup : ∀ w inp dest, (E.UpsampleImage w inp dest).2.OutWidth = 4 * inp.OutWidth ∧
      (E.UpsampleImage w inp dest).2.OutHeight = 4 * inp.OutHeight) :
    ∃ inp new,
      (exportFile E S st file).Events =
        st.Events ++
          ExportEvent.UpsampleImage inp (some ⟨4 * Image.SizeX, 4 * Image.SizeY⟩) :: new ∧
      inp.OutWidth = Image.SizeX ∧ inp.OutHeight = Image.SizeY ∧
      (new = [] ∨ ∃ task, new = [ExportEvent.Enqueue task] ∧
        task.Size = (4 * Image.SizeX, 4 * Image.SizeY)) := by
  have hdest : UTexture2D.CreateTransient
      ((E.ColorBufferToTexture (Image.SizeX * Image.SizeY) (Image.SizeX, Image.SizeY)).SizeX * 4)
      ((E.ColorBufferToTexture (Image.SizeX * Image.SizeY) (Image.SizeX, Image.SizeY)).SizeY * 4)
      = some ⟨4 * Image.SizeX, 4 * Image.SizeY⟩ := by
    rw [(hbuf _ _).1, (hbuf _ _).2]
    unfold UTexture2D.CreateTransient
    rw [if_pos ⟨by omega, by omega⟩, Int.mul_comm Image.SizeX, Int.mul_comm Image.SizeY]
  unfold exportFile
  simp only [himp, hdest]
  split
  · refine ⟨_, _, by rw [List.append_assoc]; rfl, rfl, rfl, Or.inr ⟨_, rfl, ?_⟩⟩
    simp only [(hup _ _ _).1, (hup _ _ _).2]
  · exact ⟨_, _, rfl, rfl, rfl, Or.inl rfl⟩

/-- Witness of C6: the example engine reloads "a.exr" as a 2 by 3 image; the
destination of the upsample call is 8 by 12 and so is the enqueued pixel data. -/
theorem upsample_dimensions_four_times_witness :
    ∃ inp new,
      (exportFile (testEngine latentOnly 1) exampleSettings
        { World := EModelStatus.Unloaded, Events := [] } "a.exr").Events =
        [] ++ ExportEvent.UpsampleImage inp (some ⟨4 * 2, 4 * 3⟩) :: new ∧
      inp.OutWidth = 2 ∧ inp.OutHeight = 3 ∧
      (new = [] ∨ ∃ task, new = [ExportEvent.Enqueue task] ∧ task.Size = (4 * 2, 4 * 3)) :=
  upsample_dimensions_four_times (testEngine latentOnly 1) exampleSettings
    { World := EModelStatus.Unloaded, Events := [] } "a.exr" ⟨2, 3⟩ (by decide) (by decide)
    (by decide) (fun _ _ => ⟨rfl, rfl⟩) (fun _ _ _ => ⟨rfl, rfl⟩)

/-! ## Layer options: claims -/

/-- C11: `ApplyLayerOptions` leaves out a section at `time == startFrame`.  For
every layer-processor section whose start frame is the time of the call, the
section step leaves every layer context unchanged, whatever its active flag,
stage index and layer index.  The active section `strengthSection` for layer 0
of stage 0 over the frames 0 to 10 writes its curve value at time 5 and leaves
the layer unchanged at time 0. -/
theorem layer_options_skipped_at_start_frame :
    (∀ (s : UStableDiffusionLayerProcessorSection) (Uninit : Scalar) (StageIndex : Nat)
        (t : FFrameNumber) (Layers : List FLayerProcessorContext),
      applyLayerSection Uninit StageIndex t (some Layers)
        (MovieSceneSection.layerProcessor { s with StartFrame := some t }) = some Layers) ∧
    ApplyLayerOptions [⟨[MovieSceneSection.layerProcessor strengthSection]⟩] 0 [latentLayer] 0 0 =
      some [latentLayer] ∧
    ApplyLayerOptions [⟨[MovieSceneSection.layerProcessor strengthSection]⟩] 0 [latentLayer] 0 5 =
      some [{ latentLayer with ProcessorOptions := some ⟨[("Strength", 5)]⟩ }] := by
  refine ⟨?_, by decide, by decide⟩
  intro s Uninit StageIndex t Layers
  simp [applyLayerSection, layerSectionApplies, sectionInRange]

/-! ## Export pass: skipped files -/

theorem exportFile_chunk {σ : Type} (E : Engine σ) (S : ExportSettings) (st : ExportState σ)
    (file : String) :
    ∃ chunk, (exportFile E S st file).Events = st.Events ++ chunk ∧
      FileEvents E S file chunk := by
  unfold exportFile FileEvents
  split
  · rename_i h
    exact ⟨[], by simp, Or.inl ⟨h, rfl⟩⟩
  · rename_i Image h
    simp only []
    split
    · rename_i hv
      refine ⟨_, by rw [List.append_assoc]; rfl, Or.inr ⟨Image, _, _, st.World, h, Or.inr ⟨?_, rfl⟩⟩⟩
      intro hnone
      rw [hnone] at hv
      simp at hv
    · rename_i hv
      refine ⟨_, rfl, Or.inr ⟨Image, _, _, st.World, h, Or.inl ⟨?_, rfl⟩⟩⟩
      simpa using hv

theorem exportFile_skip {σ : Type} (E : Engine σ) (S : ExportSettings) (st : ExportState σ)
    (file : String) (h : E.ImportFileAsTexture2D file = none) :
    exportFile E S st file = st := by
  simp [exportFile, h]

theorem exportFiles_chunks {σ : Type} (E : Engine σ) (S : ExportSettings) :
    ∀ (files : List String) (st : ExportState σ),
      ∃ chunks, List.Forall₂ (FileEvents E S) files chunks ∧
        (files.foldl (exportFile E S) st).Events = st.Events ++ chunks.flatten := by
  intro files
  induction files with
  | nil => intro st; exact ⟨[], List.Forall₂.nil, by simp⟩
  | cons f fs ih =>
      intro st
      obtain ⟨c, hc, hf⟩ := exportFile_chunk E S st f
      obtain ⟨cs, hcs, hfs⟩ := ih (exportFile E S st f)
      refine ⟨c :: cs, List.Forall₂.cons hf hcs, ?_⟩
      rw [List.foldl_cons, hfs, hc, List.flatten_cons, List.append_assoc]

theorem fileEvents_tasks {σ : Type} (E : Engine σ) (S : ExportSettings) :
    ∀ (files : List String) (chunks : List (List ExportEvent)),
      List.Forall₂ (FileEvents E S) files chunks →
      ∃ ok : List String, ok.Sublist files ∧
        (∀ f ∈ ok, E.ImportFileAsTexture2D f ≠ none) ∧
        (chunks.flatten.filterMap ExportEvent.enqueuedTask).map (fun task => task.Filename) =
          ok.map (E.ResolveFilename S.OutputDirectory S.UpscaledFrameName) := by
  intro files chunks h
  induction h with
  | nil => exact ⟨[], List.Sublist.slnil, by simp, by simp⟩
  | @cons f c fs cs hd _ ih =>
      obtain ⟨ok, hsub, himp, htasks⟩ := ih
      rcases hd with ⟨-, rfl⟩ | ⟨Image, inp, dest, w, hI, ⟨-, rfl⟩ | ⟨-, rfl⟩⟩
      · exact ⟨ok, hsub.cons f, himp, by simpa using htasks⟩
      · refine ⟨ok, hsub.cons f, himp, ?_⟩
        simpa [ExportEvent.enqueuedTask] using htasks
      · refine ⟨f :: ok, hsub.cons₂ f, ?_, ?_⟩
        · intro g hg
          rcases List.mem_cons.mp hg with rfl | hg
          · rw [hI]; simp
          · exact himp g hg
        · simpa [ExportEvent.enqueuedTask] using htasks

theorem exportRenderPass_chunks {σ : Type} (E : Engine σ) (S : ExportSettings)
    (st : ExportState σ) (files : List String) :
    ∃ chunks, List.Forall₂ (FileEvents E S) files chunks ∧
      (exportRenderPass E S st files).Events =
        st.Events ++ ExportEvent.StartUpsample :: (chunks.flatten ++ [ExportEvent.StopUpsample]) := by
  obtain ⟨chunks, hch, hev⟩ := exportFiles_chunks E S files
    { World := E.StartUpsample st.World, Events := st.Events ++ [ExportEvent.StartUpsample] }
  refine ⟨chunks, hch, ?_⟩
  unfold exportRenderPass
  simp only []
  rw [hev]
  simp

theorem exportPasses_chunks {σ : Type} (E : Engine σ) (S : ExportSettings) :
    ∀ (passes : List (Nat × List String)) (st : ExportState σ),
      ∃ passChunks : List (List (List ExportEvent)),
        List.Forall₂ (fun renderpass chunks => List.Forall₂ (FileEvents E S) renderpass.2 chunks)
          passes passChunks ∧
        (passes.foldl (fun acc renderpass => exportRenderPass E S acc renderpass.2) st).Events =
          st.Events ++ (passChunks.map fun chunks =>
            ExportEvent.StartUpsample :: (chunks.flatten ++ [ExportEvent.StopUpsample])).flatten := by
  intro passes
  induction passes with
  | nil => intro st; exact ⟨[], List.Forall₂.nil, by simp⟩
  | cons p ps ih =>
      intro st
      obtain ⟨c, hc, hev⟩ := exportRenderPass_chunks E S st p.2
      obtain ⟨cs, hcs, hevs⟩ := ih (exportRenderPass E S st p.2)
      refine ⟨c :: cs, List.Forall₂.cons hc hcs, ?_⟩
      rw [List.foldl_cons, hevs, hev, List.map_cons, List.flatten_cons, List.append_assoc]

/-- C12: in the file loop of a render pass of a shot, a file that fails to
reload adds nothing and a file whose upsample yields no valid image adds its
`UpsampleImage` call only; the loop goes on.  The trace of the pass is
`StartUpsample`, then one chunk of events per file in discovery order, then
`StopUpsample`; the write tasks enqueued are those of the files that reloaded
and whose upsample was valid, one each, in the order of the files.  A file that
fails to reload leaves the pass as if it were not in the list.  The trace of a
shot is the sequence of the traces of its render passes. -/
theorem failed_file_is_skipped {σ : Type} (E : Engine σ) (S : ExportSettings)
    (st : ExportState σ) (files : List String) :
    (∃ chunks, List.Forall₂ (FileEvents E S) files chunks ∧
      (exportRenderPass E S st files).Events =
        st.Events ++ ExportEvent.StartUpsample :: (chunks.flatten ++ [ExportEvent.StopUpsample]) ∧
      ∃ ok : List String, ok.Sublist files ∧
        (∀ f ∈ ok, E.ImportFileAsTexture2D f ≠ none) ∧
        (chunks.flatten.filterMap ExportEvent.enqueuedTask).map (fun task => task.Filename) =
          ok.map (E.ResolveFilename S.OutputDirectory S.UpscaledFrameName)) ∧
    (∀ (pre post : List String) (f : String), files = pre ++ f :: post →
      E.ImportFileAsTexture2D f = none →
      exportRenderPass E S st files = exportRenderPass E S st (pre ++ post)) ∧
    (∀ shot : ShotOutputData, ∃ passChunks : List (List (List ExportEvent)),
      List.Forall₂ (fun renderpass chunks => List.Forall₂ (FileEvents E S) renderpass.2 chunks)
        shot.RenderPassData passChunks ∧
      (exportShot E S st shot).Events =
        st.Events ++ (passChunks.map fun chunks =>
          ExportEvent.StartUpsample :: (chunks.flatten ++ [ExportEvent.StopUpsample])).flatten) := by
  refine ⟨?_, ?_, fun shot => exportPasses_chunks E S shot.RenderPassData st⟩
  · obtain ⟨chunks, hch, hev⟩ := exportRenderPass_chunks E S st files
    exact ⟨chunks, hch, hev, fileEvents_tasks E S files chunks hch⟩
  · intro pre post f hfiles hnone
    subst hfiles
    unfold exportRenderPass
    simp only [List.foldl_append, List.foldl_cons]
    rw [exportFile_skip E S _ f hnone]

/-- Witness of C12: with the example engine, "missing.exr" does not reload; the
pass over the three files is the pass over the two others. -/
theorem failed_file_is_skipped_witness :
    exportRenderPass (testEngine latentOnly 1) exampleSettings
        { World := EModelStatus.Unloaded, Events := [] } ["a.exr", "missing.exr", "b.exr"] =
      exportRenderPass (testEngine latentOnly 1) exampleSettings
        { World := EModelStatus.Unloaded, Events := [] } (["a.exr"] ++ ["b.exr"]) :=
  (failed_file_is_skipped (testEngine latentOnly 1) exampleSettings
    { World := EModelStatus.Unloaded, Events := [] } ["a.exr", "missing.exr", "b.exr"]).2.1
    ["a.exr"] ["b.exr"] "missing.exr" rfl (by decide)

/-! ## Frame time: lemmas and claim -/

theorem mulFloat_in_range (A : Int) (s : Scalar)
    (hlo : -2147483648 ≤ ⌊(A : Rat) * s⌋) (hhi : ⌊(A : Rat) * s⌋ ≤ 2147483647) :
    FFrameNumber.mulFloat A s = ⌊(A : Rat) * s⌋ := by
  unfold FFrameNumber.mulFloat
  rw [min_eq_right hhi, max_eq_right hlo]

theorem mulFloat_thousand (n : Int) (hlo : -2147483 ≤ n) (hhi : n ≤ 2147483) :
    FFrameNumber.mulFloat n 1000 = n * 1000 := by
  have h : ⌊(n : Rat) * 1000⌋ = n * 1000 := by
    have hc : (n : Rat) * 1000 = ((n * 1000 : Int) : Rat) := by push_cast; ring
    rw [hc, Int.floor_intCast]
  rw [mulFloat_in_range n 1000 (by rw [h]; omega) (by rw [h]; omega), h]

theorem fullFrameTime_floor (EffectiveFrame : FFrameNumber)
    (DisplayRate EffectiveFrameRate : Scalar) :
    (∀ d2 e2 : Scalar, DisplayRate / EffectiveFrameRate = d2 / e2 →
      fullFrameTime EffectiveFrame DisplayRate EffectiveFrameRate =
        fullFrameTime EffectiveFrame d2 e2) ∧
    (-2147483 ≤ ⌊((EffectiveFrame : Int) : Rat) * (DisplayRate / EffectiveFrameRate)⌋ →
      ⌊((EffectiveFrame : Int) : Rat) * (DisplayRate / EffectiveFrameRate)⌋ ≤ 2147483 →
      fullFrameTime EffectiveFrame DisplayRate EffectiveFrameRate =
        ⌊((EffectiveFrame : Int) : Rat) * (DisplayRate / EffectiveFrameRate)⌋ * 1000) ∧
    (∀ n : Int, (n : Rat) = ((EffectiveFrame : Int) : Rat) * (DisplayRate / EffectiveFrameRate) →
      -2147483 ≤ n → n ≤ 2147483 →
      ((fullFrameTime EffectiveFrame DisplayRate EffectiveFrameRate : Int) : Rat) =
        ((EffectiveFrame : Int) : Rat) * (DisplayRate / EffectiveFrameRate) * 1000) := by
  have hfloor : -2147483 ≤ ⌊((EffectiveFrame : Int) : Rat) * (DisplayRate / EffectiveFrameRate)⌋ →
      ⌊((EffectiveFrame : Int) : Rat) * (DisplayRate / EffectiveFrameRate)⌋ ≤ 2147483 →
      fullFrameTime EffectiveFrame DisplayRate EffectiveFrameRate =
        ⌊((EffectiveFrame : Int) : Rat) * (DisplayRate / EffectiveFrameRate)⌋ * 1000 := by
    intro hlo hhi
    unfold fullFrameTime
    rw [mulFloat_in_range EffectiveFrame _ (by omega) (by omega)]
    exact mulFloat_thousand _ hlo hhi
  refine ⟨?_, hfloor, ?_⟩
  · intro d2 e2 h
    unfold fullFrameTime
    rw [h]
  · intro n hn hlo hhi
    have hfl : ⌊((EffectiveFrame : Int) : Rat) * (DisplayRate / EffectiveFrameRate)⌋ = n := by
      rw [← hn, Int.floor_intCast]
    rw [hfloor (by rw [hfl]; exact hlo) (by rw [hfl]; exact hhi), hfl, ← hn]
    push_cast
    ring

/-- C7: the code does not yield `effectiveFrameNumber * displayRateRatio * 1000`
when the product of frame number and ratio is not a whole number.  At a display
rate of 30 and an effective frame rate of 60 (ratio 1/2), effective frame
number 5 yields 2000 while the formula gives 2500; frame number 4 yields 2000
as well, so both frames evaluate every curve at the same time. -/
theorem frame_time_floors_before_scaling :
    fullFrameTime 5 30 60 = 2000 ∧ ((5 : Int) : Rat) * (30 / 60) * 1000 = 2500 ∧
    fullFrameTime 4 30 60 = 2000 := by
  have h5 : ⌊((5 : Int) : Rat) * (30 / 60)⌋ = 2 := by
    rw [Int.floor_eq_iff]
    norm_num
  have h4 : ⌊((4 : Int) : Rat) * (30 / 60)⌋ = 2 := by
    rw [Int.floor_eq_iff]
    norm_num
  refine ⟨?_, by norm_num, ?_⟩
  · rw [(fullFrameTime_floor 5 30 60).2.1 (by rw [h5]; decide) (by rw [h5]; decide), h5]
    rfl
  · rw [(fullFrameTime_floor 4 30 60).2.1 (by rw [h4]; decide) (by rw [h4]; decide), h4]
    rfl

end StableDiffusionMoviePipeline
